import Mathlib

/-!
Verification development for the Messenger Wallet Bot repository.

The two core components specified by the repository's documentation are
embedded shallowly below:

* the per-user conversation state machine of
  `wallet_bot/messenger/handler.py` (states, pending data, quick-reply
  dispatch, text handling, transaction logging), and
* the report engine of `wallet_bot/analytics/generator.py` together with the
  period filtering of `wallet_bot/sheets/handler.py` and the calendar
  helpers of `wallet_bot/utils/timezone.py`.

Modelling conventions:

* Python float arithmetic is idealised as exact rational arithmetic.  To
  keep every definition evaluable by the kernel we compute on `Q`, an
  executable fraction type (integer numerator, always-positive
  denominator), and state value-level facts through its valuation
  `Q.val : Q → ℚ`.  The special values produced by `float(str)`
  (infinities and NaN) are explicit constructors of `PyFloat`, since the
  amount parser's comparisons depend on them.  Python's `round(x, n)` and
  the `:.Nf` format specifiers are embedded as exact half-even decimal
  rounding.
* Civil datetimes (the naive `datetime` values the code compares) are
  embedded as integer seconds on a single civil timeline with day zero at
  1970-01-01 (a Thursday); the string round trip through the
  `YYYY-MM-DD HH:MM:SS` format is strictly monotone, so `>=` comparisons
  on the parsed strings coincide with `>=` on this timeline.  The ambient
  clock `datetime.now()` is passed in as an explicit `now` parameter.
* The outbound messenger adapter and the spreadsheet store are external
  collaborators; their calls are recorded as abstract outputs (a list of
  sent messages, a list of durably appended rows), with the success of an
  append and the result of a read supplied by an `Env` parameter.
-/

namespace WalletBot

/-! ## Executable rationals

`Q` is an unreduced fraction `num / (pden + 1)`.  Storing the denominator
minus one keeps it positive by construction, so the valuation into `ℚ` and
the comparison operators need no side conditions, while all operations
reduce in the kernel (unlike Mathlib's `Rat`, whose arithmetic is
irreducible). -/

structure Q where
  num : Int
  pden : Nat
deriving DecidableEq, Repr

/-- The (always positive) denominator. -/
def Q.den (a : Q) : Int := (a.pden : Int) + 1

/-- Embed an integer. -/
def Q.ofInt (n : Int) : Q := ⟨n, 0⟩

/-- The rational value of a fraction. -/
def Q.val (a : Q) : ℚ := (a.num : ℚ) / (a.den : ℚ)

def Q.add (a b : Q) : Q :=
  ⟨a.num * b.den + b.num * a.den, a.pden * b.pden + a.pden + b.pden⟩

def Q.sub (a b : Q) : Q :=
  ⟨a.num * b.den - b.num * a.den, a.pden * b.pden + a.pden + b.pden⟩

def Q.mul (a b : Q) : Q :=
  ⟨a.num * b.num, a.pden * b.pden + a.pden + b.pden⟩

def Q.neg (a : Q) : Q := ⟨-a.num, a.pden⟩

/-- Multiply by `10 ^ k`. -/
def Q.mulPow10 (a : Q) (k : Nat) : Q := ⟨a.num * (10 : Int) ^ k, a.pden⟩

/-- Divide by `10 ^ k`. -/
def Q.divPow10 (a : Q) (k : Nat) : Q := ⟨a.num, (a.pden + 1) * 10 ^ k - 1⟩

/-- Division.  Only ever used with a nonzero divisor (the code guards all
its divisions); on a zero divisor it returns an unspecified total value. -/
def Q.div (a b : Q) : Q :=
  if 0 ≤ b.num then ⟨a.num * b.den, (a.pden + 1) * b.num.natAbs - 1⟩
  else ⟨-(a.num * b.den), (a.pden + 1) * b.num.natAbs - 1⟩

/-- Boolean `a <= b`, by cross multiplication (denominators are positive). -/
def Q.ble (a b : Q) : Bool := decide (a.num * b.den ≤ b.num * a.den)

/-- Boolean `a < b`, by cross multiplication (denominators are positive). -/
def Q.blt (a b : Q) : Bool := decide (a.num * b.den < b.num * a.den)

/-- Boolean value equality, by cross multiplication. -/
def Q.beqv (a b : Q) : Bool := decide (a.num * b.den = b.num * a.den)

/-! ## Python float values

`float(str)` in CPython produces a finite double, an infinity, or NaN.  We
keep the exact decimal rational for finite values (idealising away binary
representation error) and model the comparison operators, under which NaN
compares false to everything. -/

inductive PyFloat where
  | finite (q : Q)
  | pinf
  | ninf
  | nan
deriving DecidableEq, Repr

/-- Python `x <= y` on floats: any comparison with NaN is `False`. -/
def PyFloat.le : PyFloat → PyFloat → Bool
  | .nan, _ => false
  | _, .nan => false
  | .ninf, _ => true
  | _, .pinf => true
  | .pinf, _ => false
  | _, .ninf => false
  | .finite a, .finite b => a.ble b

/-- Python `x < y` on floats: any comparison with NaN is `False`. -/
def PyFloat.lt : PyFloat → PyFloat → Bool
  | .nan, _ => false
  | _, .nan => false
  | .pinf, _ => false
  | _, .pinf => true
  | _, .ninf => false
  | .ninf, _ => true
  | .finite a, .finite b => a.blt b

/-- Negation, used for a leading `-` sign in `float(str)`. -/
def PyFloat.neg : PyFloat → PyFloat
  | .finite q => .finite q.neg
  | .pinf => .ninf
  | .ninf => .pinf
  | .nan => .nan

/-! ## Half-even decimal rounding

Python's `round(x, n)` (banker's rounding) embedded exactly. -/

/-- Round a fraction to the nearest integer, ties to the even integer. -/
def Q.roundHalfEven (q : Q) : Int :=
  let f := q.num.ediv q.den
  let r := q.num - f * q.den
  if 2 * r < q.den then f
  else if q.den < 2 * r then f + 1
  else if f.emod 2 = 0 then f else f + 1

/-- Round a fraction to `n` decimal places, ties to even (Python `round(q, n)`). -/
def Q.roundTo (n : Nat) (q : Q) : Q :=
  ⟨(q.mulPow10 n).roundHalfEven, 10 ^ n - 1⟩

/-- Python `round(x, 2)` on a float value; `round` passes NaN and
infinities through unchanged when `ndigits` is given. -/
def PyFloat.round2 : PyFloat → PyFloat
  | .finite q => .finite (Q.roundTo 2 q)
  | x => x

/-! ## The grammar of Python `float(str)`

After the handler's cleaning step no whitespace remains, so only the sign,
the special words `inf` / `infinity` / `nan` (case-insensitive) and decimal
numerals (with single underscores between digits, an optional fraction and
an optional exponent) are relevant.  Only ASCII digits are modelled. -/

/-- Value of a list of ASCII digits read in base 10. -/
def digitsValue (cs : List Char) : Nat :=
  cs.foldl (fun a c => 10 * a + (c.toNat - 48)) 0

/-- No two adjacent underscores (used to validate Python numeric underscores). -/
def noAdjUnderscore : List Char → Bool
  | c :: d :: rest => !(c = '_' && d = '_') && noAdjUnderscore (d :: rest)
  | _ => true

/-- Parse one `digitpart` of the Python float grammar:
`digit (["_"] digit)*`.  Returns its value, its digit count, and the
unconsumed remainder, or `none` if no valid digitpart starts here. -/
def parseDigitpart (cs : List Char) : Option (Nat × Nat × List Char) :=
  let run := cs.takeWhile (fun c => c.isDigit || c = '_')
  let rest := cs.drop run.length
  match run.head?, run.getLast? with
  | some c0, some cl =>
    if c0.isDigit && cl.isDigit && noAdjUnderscore run then
      let ds := run.filter Char.isDigit
      some (digitsValue ds, ds.length, rest)
    else none
  | _, _ => none

/-- Parse an unsigned decimal numeral (mantissa and optional exponent),
requiring the whole input to be consumed, as `float(str)` does. -/
def parseUnsignedNumber (cs : List Char) : Option Q :=
  let (ival, idig, rest) :=
    match parseDigitpart cs with
    | some (v, n, r) => (v, n, r)
    | none => (0, 0, cs)
  let (fval, fdig, rest2) :=
    match rest with
    | '.' :: cs2 =>
      match parseDigitpart cs2 with
      | some (v, n, r) => (v, n, r)
      | none => (0, 0, cs2)
    | _ => (0, 0, rest)
  if idig + fdig = 0 then none
  else
    let mantissa : Q := ⟨(ival : Int) * 10 ^ fdig + fval, 10 ^ fdig - 1⟩
    match rest2 with
    | [] => some mantissa
    | 'e' :: cs3 | 'E' :: cs3 =>
      let (esign, cs4) :=
        match cs3 with
        | '-' :: r => (true, r)
        | '+' :: r => (false, r)
        | r => (false, r)
      match parseDigitpart cs4 with
      | some (e, _, []) =>
        some (if esign then mantissa.divPow10 e else mantissa.mulPow10 e)
      | _ => none
    | _ => none

/-- Parse the body of a float literal (after an optional sign). -/
def parsePyFloatBody (cs : List Char) : Option PyFloat :=
  let ls := cs.map Char.toLower
  if ls = "inf".toList || ls = "infinity".toList then some .pinf
  else if ls = "nan".toList then some .nan
  else (parseUnsignedNumber cs).map .finite

/-- CPython `float(str)` on a string without surrounding whitespace:
an optional sign followed by a special word or a decimal numeral. -/
def pyFloatOfString (s : String) : Option PyFloat :=
  match s.toList with
  | '+' :: cs => parsePyFloatBody cs
  | '-' :: cs => (parsePyFloatBody cs).map PyFloat.neg
  | cs => parsePyFloatBody cs

/-! ## The amount parser (`_parse_amount` in `messenger/handler.py`) -/

/-- Characters removed by the cleaning step: the character class of
`re.sub(r"[₱$,\s]", "", amount_text)`.  ASCII whitespace is spelled out. -/
def isStrippedChar (c : Char) : Bool :=
  c = '₱' || c = '$' || c = ',' ||
  c = ' ' || c = '\t' || c = '\n' || c = '\r' ||
  c = Char.ofNat 11 || c = Char.ofNat 12

/-- Cleaning step of `_parse_amount`: delete currency symbols, commas and
whitespace anywhere in the input. -/
def cleanAmount (s : String) : String :=
  ⟨s.toList.filter (fun c => !isStrippedChar c)⟩

/-- Embeds `_parse_amount`: clean, convert with `float`, reject amounts
`<= 0` or `> 1_000_000` (comparisons in float semantics, so NaN passes),
and round the survivor to two decimals.  `none` is the invalid signal. -/
def parseAmount (amountText : String) : Option PyFloat :=
  match pyFloatOfString (cleanAmount amountText) with
  | none => none
  | some amount =>
    if amount.le (.finite (Q.ofInt 0)) || (PyFloat.finite (Q.ofInt 1000000)).lt amount
    then none
    else some amount.round2


/-! ## Conversation engine data model (`messenger/handler.py`)

Per-user session state, pending data, outbound messages, appended sheet
rows, and the environment supplying the ambient clock and the outcome of
the spreadsheet boundary calls. -/

/-- The states of `class ConversationState`. -/
inductive ConvState where
  | idle
  | waitingExpenseCategory
  | waitingExpenseDescription
  | waitingExpenseAmount
  | waitingIncomeSource
  | waitingIncomeDescription
  | waitingIncomeAmount
  | waitingStatsPeriod
deriving DecidableEq, Repr

/-- The keys written into `conversation_states[user]["data"]`. -/
structure PendingData where
  expenseCategory : Option String := none
  expenseDescription : Option String := none
  incomeSource : Option String := none
  incomeDescription : Option String := none
deriving DecidableEq, Repr

/-- One user's entry in `conversation_states`.  An absent dictionary entry
behaves exactly like `state = IDLE, data = {}` through the getters, so the
entry is modelled as always present with those defaults. -/
structure Session where
  state : ConvState := .idle
  data : PendingData := {}
deriving DecidableEq, Repr

/-- The session written by `_reset_conversation_state`. -/
def Session.init : Session := {}

/-- One row of the Data_Log sheet, in the `DATA_LOG_COLUMNS` order.
The timestamp is `format_manila_timestamp()` embedded as seconds on the
UTC+8 civil timeline. -/
structure SheetRow where
  timestamp : Int
  transactionType : String
  categoryOrSource : String
  description : String
  amount : PyFloat
  userId : String
deriving DecidableEq, Repr

/-- Outbound messages, one constructor per `messenger/api.py` send helper
used by the handler.  `report` records that `generate_report` was applied
to the listed transactions for the period (the rendered text itself is
modelled by the report-engine embedding below). -/
inductive Msg where
  | typing
  | welcome
  | textOut (s : String)
  | quickReplies (text : String) (choices : List (String × String))
  | confirmation (ttype : String) (amount : PyFloat) (desc : String) (cat : String)
  | errorMsg (tag : String)
  | report (period : String) (transactions : List SheetRow)
  | noTransactions (period : String)
deriving DecidableEq, Repr

/-- Environment for one handled event: the clock, whether
`api.append_row` succeeds, and what `get_transactions_for_period`
returns (or that it raises). -/
structure Env where
  now : Int
  storageOk : Bool
  readResult : Except Unit (List SheetRow)

/-- Result of handling one event: the new session, the rows durably
appended to the store, and the messages sent. -/
abbrev StepResult := Session × List SheetRow × List Msg

/-- Python `payload.startswith(p)`, via character-list prefixes. -/
def strStartsWith (s p : String) : Bool := p.toList.isPrefixOf s.toList

/-- Python `s.lower()` (ASCII case folding, per character). -/
def strToLower (s : String) : String := ⟨s.toList.map Char.toLower⟩

/-- ASCII whitespace, the characters `str.strip()` removes. -/
def pyIsSpace (c : Char) : Bool :=
  c = ' ' || c = '\t' || c = '\n' || c = '\r' || c = Char.ofNat 11 || c = Char.ofNat 12

/-- Python `s.strip()`: drop whitespace from both ends. -/
def strStrip (s : String) : String :=
  ⟨((s.toList.dropWhile pyIsSpace).reverse.dropWhile pyIsSpace).reverse⟩

/-- Codepoint-lexicographic `<=` on character lists (Python string order). -/
def charListLe : List Char → List Char → Bool
  | [], _ => true
  | _ :: _, [] => false
  | a :: as, b :: bs =>
    if a.toNat < b.toNat then true
    else if b.toNat < a.toNat then false
    else charListLe as bs

/-- Python string `<=`. -/
def strLe (a b : String) : Bool := charListLe a.toList b.toList

/-- The `category_map` of `_handle_expense_category_selection`
(`.get(payload, "Other")`). -/
def categoryMap (payload : String) : String :=
  if payload = "CATEGORY_FOOD" then "Food"
  else if payload = "CATEGORY_TRANSPORT" then "Transportation"
  else if payload = "CATEGORY_HOUSING" then "Housing"
  else if payload = "CATEGORY_SHOPPING" then "Shopping"
  else if payload = "CATEGORY_UTILITIES" then "Utilities"
  else if payload = "CATEGORY_ENTERTAINMENT" then "Entertainment"
  else if payload = "CATEGORY_HEALTHCARE" then "Healthcare"
  else if payload = "CATEGORY_EDUCATION" then "Education"
  else "Other"

/-- The `source_map` of `_handle_income_source_selection`. -/
def sourceMap (payload : String) : String :=
  if payload = "SOURCE_SALARY" then "Salary"
  else if payload = "SOURCE_FREELANCE" then "Freelance"
  else if payload = "SOURCE_BUSINESS" then "Business"
  else if payload = "SOURCE_GIFT" then "Gift"
  else if payload = "SOURCE_INVESTMENT" then "Investment"
  else if payload = "SOURCE_REFUND" then "Refund"
  else "Other"

/-- The `period_map` of `_handle_stats_period_selection`
(`.get(payload, "This Week")`). -/
def periodMap (payload : String) : String :=
  if payload = "PERIOD_WEEK" then "This Week"
  else if payload = "PERIOD_MONTH" then "This Month"
  else "This Week"

/-- The `EXPENSE_CATEGORIES` quick-reply list (title, payload). -/
def EXPENSE_CATEGORIES : List (String × String) :=
  [("🍔 Food", "CATEGORY_FOOD"), ("🚗 Transportation", "CATEGORY_TRANSPORT"),
   ("🏠 Housing", "CATEGORY_HOUSING"), ("🛒 Shopping", "CATEGORY_SHOPPING"),
   ("⚡ Utilities", "CATEGORY_UTILITIES"), ("🎬 Entertainment", "CATEGORY_ENTERTAINMENT"),
   ("💊 Healthcare", "CATEGORY_HEALTHCARE"), ("📚 Education", "CATEGORY_EDUCATION"),
   ("🔧 Other", "CATEGORY_OTHER")]

/-- The `INCOME_SOURCES` quick-reply list (title, payload). -/
def INCOME_SOURCES : List (String × String) :=
  [("💼 Salary", "SOURCE_SALARY"), ("💻 Freelance", "SOURCE_FREELANCE"),
   ("📈 Business", "SOURCE_BUSINESS"), ("🎁 Gift", "SOURCE_GIFT"),
   ("💰 Investment", "SOURCE_INVESTMENT"), ("🔄 Refund", "SOURCE_REFUND"),
   ("🔧 Other", "SOURCE_OTHER")]

/-- The `STATS_PERIODS` quick-reply list (title, payload). -/
def STATS_PERIODS : List (String × String) :=
  [("📅 This Week", "PERIOD_WEEK"), ("📆 This Month", "PERIOD_MONTH")]

/-! ## Conversation engine operations -/

/-- Embeds `log_transaction` of `sheets/handler.py`: validate, build the
row (timestamp from the Manila clock), append.  A validation failure or a
re-raised append failure is `Except.error`; otherwise the append success
flag and the rows durably written are returned.  In the source a failed
`api.append_row` returns `False` rather than raising, so it is modelled as
`ok (false, [])`. -/
def logTransaction (env : Env) (uid ttype catOrSource desc : String)
    (amount : PyFloat) : Except Unit (Bool × List SheetRow) :=
  if ttype ≠ "income" ∧ ttype ≠ "expense" then .error ()
  else if amount.le (.finite (Q.ofInt 0)) then .error ()
  else if catOrSource = "" ∨ desc = "" then .error ()
  else
    let row : SheetRow := ⟨env.now, ttype, catOrSource, desc, amount, uid⟩
    if env.storageOk then .ok (true, [row]) else .ok (false, [])

/-- Embeds `_log_expense_transaction`: call `log_transaction` with
`type='expense'`, swallowing any exception into `False`.  The best-effort
`regenerate_formatted_report()` side effect on success is external and not
recorded. -/
def logExpenseTransaction (env : Env) (uid : String) (amount : PyFloat)
    (description category : String) : Bool × List SheetRow :=
  match logTransaction env uid "expense" category description amount with
  | .error _ => (false, [])
  | .ok r => r

/-- Embeds `_log_income_transaction`: call `log_transaction` with
`type='income'`, swallowing any exception into `False`. -/
def logIncomeTransaction (env : Env) (uid : String) (amount : PyFloat)
    (description source : String) : Bool × List SheetRow :=
  match logTransaction env uid "income" source description amount with
  | .error _ => (false, [])
  | .ok r => r

/-- Embeds `_start_expense_logging`: only the state is written (pending
data is left as is), then the category prompt is sent. -/
def startExpenseLogging (sess : Session) : StepResult :=
  ({ sess with state := .waitingExpenseCategory }, [],
   [.quickReplies "💸 Let\x27s log your expense!\n\nFirst, what category does this expense fall under?" EXPENSE_CATEGORIES])

/-- Embeds `_start_income_logging`. -/
def startIncomeLogging (sess : Session) : StepResult :=
  ({ sess with state := .waitingIncomeSource }, [],
   [.quickReplies "💰 Great! Let\x27s log your income.\n\nWhat\x27s the source of this income?" INCOME_SOURCES])

/-- Embeds `_start_stats_request`. -/
def startStatsRequest (sess : Session) : StepResult :=
  ({ sess with state := .waitingStatsPeriod }, [],
   [.quickReplies "📊 I\x27ll generate your financial report!\n\nWhich time period would you like to see?" STATS_PERIODS])

/-- Embeds `_handle_expense_category_selection`: store the mapped
category, advance to the description state, prompt. -/
def handleExpenseCategorySelection (sess : Session) (payload : String) : StepResult :=
  let category := categoryMap payload
  ({ state := .waitingExpenseDescription,
     data := { sess.data with expenseCategory := some category } }, [],
   [.textOut ("✅ Category: " ++ category ++ "\n\nNow, please provide a brief description of this expense.\n\nExample: \x27Lunch at McDonald\x27s\x27 or \x27Gas for car\x27")])

/-- Embeds `_handle_income_source_selection`. -/
def handleIncomeSourceSelection (sess : Session) (payload : String) : StepResult :=
  let source := sourceMap payload
  ({ state := .waitingIncomeDescription,
     data := { sess.data with incomeSource := some source } }, [],
   [.textOut ("✅ Source: " ++ source ++ "\n\nPlease provide a description for this income.\n\nExample: \x27Monthly salary\x27 or \x27Website project payment\x27")])

/-- Embeds `_generate_and_send_report`: read the period's transactions; a
raised read failure is caught and answered with the generic error message
(note: without any state reset); an empty result and a generated report
both reset the conversation before sending. -/
def generateAndSendReport (env : Env) (sess : Session) (period : String) : StepResult :=
  match env.readResult with
  | .error _ => (sess, [], [.errorMsg "general"])
  | .ok transactions =>
    if transactions.isEmpty then (Session.init, [], [.noTransactions period])
    else (Session.init, [], [.report period transactions])

/-- Embeds `_handle_stats_period_selection`. -/
def handleStatsPeriodSelection (env : Env) (sess : Session) (payload : String) : StepResult :=
  generateAndSendReport env sess (periodMap payload)

/-- Embeds `_handle_quick_reply`: fixed string and string-prefix dispatch,
independent of the current conversation state; an unrecognized payload is
answered with the generic error message and touches nothing. -/
def handleQuickReply (env : Env) (uid : String) (sess : Session) (payload : String) :
    StepResult :=
  if payload = "LOG_EXPENSE" then startExpenseLogging sess
  else if payload = "LOG_INCOME" then startIncomeLogging sess
  else if payload = "VIEW_STATS" then startStatsRequest sess
  else if strStartsWith payload "CATEGORY_" then handleExpenseCategorySelection sess payload
  else if strStartsWith payload "SOURCE_" then handleIncomeSourceSelection sess payload
  else if strStartsWith payload "PERIOD_" then handleStatsPeriodSelection env sess payload
  else (sess, [], [.errorMsg "general"])

/-- Embeds `_handle_expense_description`: require at least two characters
after trimming, then store the trimmed description and ask for the amount. -/
def handleExpenseDescription (sess : Session) (description : String) : StepResult :=
  if (strStrip description).length < 2 then (sess, [], [.errorMsg "missing_description"])
  else
    ({ state := .waitingExpenseAmount,
       data := { sess.data with expenseDescription := some (strStrip description) } }, [],
     [.textOut ("✅ Description: " ++ strStrip description ++ "\n\nFinally, how much did you spend?\n\nJust enter the amount (numbers only):\nExample: 150 or 1500.50")])

/-- Embeds `_handle_income_description`. -/
def handleIncomeDescription (sess : Session) (description : String) : StepResult :=
  if (strStrip description).length < 2 then (sess, [], [.errorMsg "missing_description"])
  else
    ({ state := .waitingIncomeAmount,
       data := { sess.data with incomeDescription := some (strStrip description) } }, [],
     [.textOut ("✅ Description: " ++ strStrip description ++ "\n\nHow much did you receive?\n\nJust enter the amount (numbers only):\nExample: 5000 or 15000.75")])

/-- Embeds `_handle_expense_amount`: parse, fall back to stored pending
data with defaults, log, and only on success reset the session and
confirm.  A parse failure or a storage failure leaves the session as it
was. -/
def handleExpenseAmount (env : Env) (uid : String) (sess : Session)
    (amountText : String) : StepResult :=
  match parseAmount amountText with
  | none => (sess, [], [.errorMsg "invalid_amount"])
  | some amount =>
    let category := sess.data.expenseCategory.getD "Other"
    let description := sess.data.expenseDescription.getD "Expense"
    let (success, rows) := logExpenseTransaction env uid amount description category
    if success then
      (Session.init, rows, [.confirmation "expense" amount description category])
    else (sess, rows, [.errorMsg "sheets_error"])

/-- Embeds `_handle_income_amount`. -/
def handleIncomeAmount (env : Env) (uid : String) (sess : Session)
    (amountText : String) : StepResult :=
  match parseAmount amountText with
  | none => (sess, [], [.errorMsg "invalid_amount"])
  | some amount =>
    let source := sess.data.incomeSource.getD "Other"
    let description := sess.data.incomeDescription.getD "Income"
    let (success, rows) := logIncomeTransaction env uid amount description source
    if success then
      (Session.init, rows, [.confirmation "income" amount description source])
    else (sess, rows, [.errorMsg "sheets_error"])

/-- Does `pat` occur as a contiguous sublist? -/
def listContains (pat : List Char) : List Char → Bool
  | [] => pat.isEmpty
  | c :: cs => pat.isPrefixOf (c :: cs) || listContains pat cs

/-- Substring test (`pat in s` in Python). -/
def containsSub (s pat : String) : Bool := listContains pat.toList s.toList

/-- Python `any(word in text for word in words)`. -/
def containsAny (s : String) (pats : List String) : Bool :=
  pats.any (fun p => containsSub s p)

/-- Embeds `_handle_idle_text_message`: keyword containment checks on the
lowercased text; `_send_help_message` ends up sending the welcome menu. -/
def handleIdleTextMessage (sess : Session) (text : String) : StepResult :=
  let tl := strToLower text
  if containsAny tl ["hi", "hello", "hey", "start", "menu"] then (sess, [], [.welcome])
  else if containsAny tl ["expense", "spend", "cost", "buy", "paid"] then
    startExpenseLogging sess
  else if containsAny tl ["income", "earn", "salary", "money", "receive"] then
    startIncomeLogging sess
  else if containsAny tl ["stats", "report", "summary", "total", "view"] then
    startStatsRequest sess
  else if containsAny tl ["help", "what", "how"] then (sess, [], [.welcome])
  else (sess, [], [.welcome])

/-- Embeds `_reset_and_show_menu`. -/
def resetAndShowMenu : StepResult := (Session.init, [], [.welcome])

/-- Embeds `_handle_text_message`: dispatch on the current state; the
selection-waiting states fall into the `else` branch, which resets and
shows the menu. -/
def handleTextMessage (env : Env) (uid : String) (sess : Session) (text : String) :
    StepResult :=
  match sess.state with
  | .idle => handleIdleTextMessage sess text
  | .waitingExpenseDescription => handleExpenseDescription sess text
  | .waitingExpenseAmount => handleExpenseAmount env uid sess text
  | .waitingIncomeDescription => handleIncomeDescription sess text
  | .waitingIncomeAmount => handleIncomeAmount env uid sess text
  | _ => resetAndShowMenu

/-- The two inbound event shapes the engine consumes. -/
inductive Event where
  | quickReply (payload : String)
  | textMsg (t : String)
deriving DecidableEq, Repr

/-- Embeds `_handle_incoming_message`: send the typing indicator, then
dispatch quick replies by payload and texts by state.  The entry-point
`text.strip()` is omitted here: `strip` is idempotent, the description
handlers re-strip their input, the amount parser deletes all whitespace
itself, and the idle keyword patterns contain no whitespace, so composing
with the entry strip changes no handler outcome. -/
def handleEvent (env : Env) (uid : String) (sess : Session) (ev : Event) : StepResult :=
  match ev with
  | .quickReply payload =>
    let r := handleQuickReply env uid sess payload
    (r.1, r.2.1, .typing :: r.2.2)
  | .textMsg t =>
    let r := handleTextMessage env uid sess t
    (r.1, r.2.1, .typing :: r.2.2)

/-- Run a sequence of events under one environment, collecting the rows
appended and the messages sent. -/
def runEvents (env : Env) (uid : String) (sess : Session) :
    List Event → Session × List SheetRow × List Msg
  | [] => (sess, [], [])
  | e :: rest =>
    let r := handleEvent env uid sess e
    let r2 := runEvents env uid r.1 rest
    (r2.1, r.2.1 ++ r2.2.1, r.2.2 ++ r2.2.2)

/-! ## Period calendar (`utils/timezone.py` and the naive variants)

Instants are seconds on the civil timeline; day zero is 1970-01-01, a
Thursday, so Python's `weekday()` (Monday = 0) of day `z` is
`(z + 3) mod 7`.  Floor division keeps the arithmetic correct on negative
instants. -/

/-- Python `dt.weekday()` on the civil timeline. -/
def weekdayOf (t : Int) : Int := ((t.ediv 86400) + 3).emod 7

/-- Midnight of the day containing `t` (`dt.replace(hour=0, ...)`). -/
def dayStartTs (t : Int) : Int := (t.ediv 86400) * 86400

/-- The most recent Monday 00:00:00
(`dt - timedelta(days=dt.weekday())` then zeroing the time of day),
as computed by `get_week_start_manila` and by `_filter_by_period`. -/
def weekStartTs (t : Int) : Int := ((t.ediv 86400) - weekdayOf t) * 86400

/-- Day count of a civil date (civil-from-days companion below). -/
def daysFromCivil (y : Int) (m d : Nat) : Int :=
  let yAdj : Int := if m ≤ 2 then y - 1 else y
  let era : Int := yAdj.ediv 400
  let yoe : Int := yAdj - era * 400
  let mp : Int := ((m : Int) + 9).emod 12
  let doy : Int := (153 * mp + 2).ediv 5 + (d : Int) - 1
  let doe : Int := yoe * 365 + yoe.ediv 4 - yoe.ediv 100 + doy
  era * 146097 + doe - 719468

/-- Civil date of a day count (standard era-based algorithm). -/
def civilFromDays (z : Int) : Int × Nat × Nat :=
  let z2 := z + 719468
  let era := z2.ediv 146097
  let doe := z2 - era * 146097
  let yoe := (doe - doe.ediv 1460 + doe.ediv 36524 - doe.ediv 146096).ediv 365
  let y := yoe + era * 400
  let doy := doe - (365 * yoe + yoe.ediv 4 - yoe.ediv 100)
  let mp := (5 * doy + 2).ediv 153
  let d := doy - (153 * mp + 2).ediv 5 + 1
  let m := if mp < 10 then mp + 3 else mp - 9
  (if m ≤ 2 then y + 1 else y, m.toNat, d.toNat)

/-- First day of the month of `t`, at midnight
(`dt.replace(day=1, hour=0, ...)`), as computed by
`get_month_start_manila` and by `_filter_by_period`. -/
def monthStartTs (t : Int) : Int :=
  let c := civilFromDays (t.ediv 86400)
  (daysFromCivil c.1 c.2.1 1) * 86400

/-! ## Number rendering (Python format specifiers) -/

/-- Comma-group a reversed digit list in threes. -/
def chunk3 : List Char → List Char
  | a :: b :: c :: d :: rest => a :: b :: c :: ',' :: chunk3 (d :: rest)
  | l => l

/-- Decimal digits of `n` with thousands separators. -/
def intThousands (n : Nat) : String :=
  ⟨(chunk3 (Nat.toDigits 10 n).reverse).reverse⟩

/-- Two-digit zero-padded rendering of `n < 100`. -/
def twoDigits (n : Nat) : String :=
  if n < 10 then "0" ++ Nat.repr n else Nat.repr n

/-- Python `f"{x:,.2f}"`: half-even rounding to two decimals, thousands
separators in the integer part. -/
def formatComma2 (q : Q) : String :=
  let scaled := (q.mulPow10 2).roundHalfEven
  let sign := if scaled < 0 then "-" else ""
  let a := scaled.natAbs
  sign ++ intThousands (a / 100) ++ "." ++ twoDigits (a % 100)

/-- Python `f"₱{x:,.2f}"` — `_format_currency` in the generator. -/
def formatCurrency (q : Q) : String := "₱" ++ formatComma2 q

/-- Python `f"{x:.1f}"`: half-even rounding to one decimal. -/
def format1 (q : Q) : String :=
  let scaled := (q.mulPow10 1).roundHalfEven
  let sign := if scaled < 0 then "-" else ""
  let a := scaled.natAbs
  sign ++ Nat.repr (a / 10) ++ "." ++ Nat.repr (a % 10)

/-! ## Report engine (`analytics/generator.py`)

A `TxRow` is one entry of the transaction list in the shape
`generate_report` documents and reads: columns `timestamp`, `type`,
`category` (holding the data model's `category_or_source`), `description`,
`amount` (already numeric; `pd.to_numeric` idealised). -/

structure TxRow where
  timestamp : Int
  ttype : String
  category : String
  description : String
  amount : Q
deriving DecidableEq, Repr

/-- Row selected by `df["type"].str.lower() == "income"`. -/
def TxRow.isIncome (r : TxRow) : Bool := strToLower r.ttype = "income"

/-- Row selected by `df["type"].str.lower() == "expense"`. -/
def TxRow.isExpense (r : TxRow) : Bool := strToLower r.ttype = "expense"

/-- Embeds `_filter_by_period`: cutoff at the most recent Monday for
"This Week", the first of the month for "This Month", and a trailing
7-day window (`now - timedelta(days=7)`) for any other period; retain
rows with `timestamp >= cutoff`. -/
def filterByPeriod (now : Int) (period : String) (rows : List TxRow) : List TxRow :=
  let cutoff :=
    if period = "This Week" then weekStartTs now
    else if period = "This Month" then monthStartTs now
    else now - 7 * 86400
  rows.filter (fun r => cutoff ≤ r.timestamp)

/-- Sum of the `amount` column (`.sum()`, 0 on empty). -/
def sumAmounts (rows : List TxRow) : Q :=
  rows.foldl (fun a r => a.add r.amount) (Q.ofInt 0)

/-- Embeds `_calculate_total_income`. -/
def totalIncome (rows : List TxRow) : Q := sumAmounts (rows.filter TxRow.isIncome)

/-- Embeds `_calculate_total_expenses`. -/
def totalExpenses (rows : List TxRow) : Q := sumAmounts (rows.filter TxRow.isExpense)

/-- First row attaining the maximal amount (`Series.idxmax` keeps the
first occurrence on ties). -/
def firstMaxRow : List TxRow → Option TxRow
  | [] => none
  | r :: rs =>
    match firstMaxRow rs with
    | none => some r
    | some m => if r.amount.blt m.amount then some m else some r

/-- Embeds `_find_biggest_expense` (returning the whole row; the source
returns its amount, description and category fields). -/
def findBiggestExpense (rows : List TxRow) : Option TxRow :=
  firstMaxRow (rows.filter TxRow.isExpense)

/-- Total spent in category `c` (`groupby("category")["amount"].sum()`
evaluated at key `c`). -/
def categorySum (rows : List TxRow) (c : String) : Q :=
  sumAmounts ((rows.filter TxRow.isExpense).filter (fun r => r.category = c))

/-- Total received from source `c`, over the income rows. -/
def sourceSum (rows : List TxRow) (c : String) : Q :=
  sumAmounts ((rows.filter TxRow.isIncome).filter (fun r => r.category = c))

/-- Stable insertion into a sorted list. -/
def insertLe (le : α → α → Bool) (x : α) : List α → List α
  | [] => [x]
  | y :: ys => if le x y then x :: y :: ys else y :: insertLe le x ys

/-- Stable insertion sort (used for the deterministic order of pandas
`groupby` keys and of `sort_values`). -/
def insertionSort (le : α → α → Bool) : List α → List α
  | [] => []
  | x :: xs => insertLe le x (insertionSort le xs)

/-- The distinct expense categories in the `groupby` key order
(pandas sorts group keys ascending). -/
def sortedExpenseCategories (rows : List TxRow) : List String :=
  insertionSort strLe (((rows.filter TxRow.isExpense).map TxRow.category).dedup)

/-- First key of maximal value in the given key order (`Series.idxmax`). -/
def firstMaxCat (rows : List TxRow) : List String → Option (String × Q)
  | [] => none
  | c :: cs =>
    match firstMaxCat rows cs with
    | none => some (c, categorySum rows c)
    | some (m, mv) =>
      if (categorySum rows c).blt mv then some (m, mv)
      else some (c, categorySum rows c)

/-- Embeds `_find_top_expense_category`: group the expense rows by
category, sum each group, pick the key with the largest sum. -/
def findTopExpenseCategory (rows : List TxRow) : Option (String × Q) :=
  firstMaxCat rows (sortedExpenseCategories rows)

/-- Embeds `_get_income_breakdown`: per-source sums, sorted descending. -/
def incomeBreakdown (rows : List TxRow) : List (String × Q) :=
  let cats := insertionSort strLe
    (((rows.filter TxRow.isIncome).map TxRow.category).dedup)
  insertionSort (fun a b => b.2.ble a.2) (cats.map (fun c => (c, sourceSum rows c)))

/-- Embeds `_get_expense_breakdown`: per-category sums, sorted descending. -/
def expenseBreakdown (rows : List TxRow) : List (String × Q) :=
  let cats := sortedExpenseCategories rows
  insertionSort (fun a b => b.2.ble a.2) (cats.map (fun c => (c, categorySum rows c)))

/-- The metrics `generate_report` computes before rendering. -/
structure ReportData where
  incomeTotal : Q
  expenseTotal : Q
  netSavings : Q
  biggestExpense : Option TxRow
  topCategory : Option (String × Q)
  incomeBreakdown : List (String × Q)
  expenseBreakdown : List (String × Q)
  titheRecommendation : Q
  savingsRate : Q
  transactionCount : Nat
deriving DecidableEq, Repr

/-- The metric-computation phase of `generate_report`: `none` when the
input is empty or nothing survives the period filter (the short-circuit
branches); otherwise all derived metrics.  `tithe = income * 0.10`;
`savings_rate = net / income * 100` when income is positive, else `0`. -/
def computeReport (now : Int) (rows : List TxRow) (period : String) :
    Option ReportData :=
  if rows.isEmpty then none
  else
    let df := filterByPeriod now period rows
    if df.isEmpty then none
    else
      let incomeTotal := totalIncome df
      let expenseTotal := totalExpenses df
      let net := incomeTotal.sub expenseTotal
      some
        { incomeTotal := incomeTotal
          expenseTotal := expenseTotal
          netSavings := net
          biggestExpense := findBiggestExpense df
          topCategory := findTopExpenseCategory df
          incomeBreakdown := incomeBreakdown df
          expenseBreakdown := expenseBreakdown df
          titheRecommendation := incomeTotal.mul ⟨1, 9⟩
          savingsRate :=
            if (Q.ofInt 0).blt incomeTotal then (net.div incomeTotal).mul (Q.ofInt 100)
            else Q.ofInt 0
          transactionCount := df.length }

/-- One line of the rendered report, as built by
`_build_formatted_report`; `render` below produces the exact text. -/
inductive RLine where
  | header (period : String)
  | separator
  | overviewHdr
  | totalIncomeLine (q : Q)
  | totalExpensesLine (q : Q)
  | netSavingsLine (q : Q)
  | savingsRateLine (q : Q)
  | txCountLine (n : Nat)
  | blank
  | incomeHdr
  | incomeItem (src : String) (q : Q)
  | expenseHdr
  | expenseItem (cat : String) (q : Q)
  | insightsHdr
  | biggestExpenseLine (q : Q) (desc : String)
  | topCategoryLine (cat : String) (q : Q)
  | titheLine (q : Q)
  | healthPositive
  | healthBreakEven
  | healthNegative
  | footer
deriving DecidableEq, Repr

/-- The exact text of each report line. -/
def RLine.render : RLine → String
  | .header p => "📊 *" ++ p ++ " Financial Summary*"
  | .separator => "=============================="
  | .overviewHdr => "💰 *OVERVIEW*"
  | .totalIncomeLine q => "Total Income: " ++ formatCurrency q
  | .totalExpensesLine q => "Total Expenses: " ++ formatCurrency q
  | .netSavingsLine q => "Net Savings: " ++ formatCurrency q
  | .savingsRateLine q => "Savings Rate: " ++ format1 q ++ "%"
  | .txCountLine n => "Transactions Logged: " ++ Nat.repr n
  | .blank => ""
  | .incomeHdr => "💼 *INCOME SOURCES*"
  | .incomeItem s q => "• " ++ s ++ ": " ++ formatCurrency q
  | .expenseHdr => "💸 *EXPENSE CATEGORIES*"
  | .expenseItem c q => "• " ++ c ++ ": " ++ formatCurrency q
  | .insightsHdr => "🔍 *KEY INSIGHTS*"
  | .biggestExpenseLine q d => "Biggest Expense: " ++ formatCurrency q ++ " (" ++ d ++ ")"
  | .topCategoryLine c q => "Top Spending Category: " ++ c ++ " (" ++ formatCurrency q ++ ")"
  | .titheLine q => "Suggested Tithe (10%): " ++ formatCurrency q
  | .healthPositive => "✅ Great job! You\x27re saving money this period."
  | .healthBreakEven => "⚖️ You\x27re breaking even this period."
  | .healthNegative => "⚠️ You\x27re spending more than you earn this period."
  | .footer => "Keep tracking to build better financial habits! 💪"

/-- Embeds `_build_formatted_report`: the report lines in order, with the
savings-rate and tithe lines conditional on a positive income total, the
breakdown blocks conditional on non-emptiness (top three entries each),
the insight lines conditional on their `Option`s, and the qualitative
health line chosen by the sign of the net savings. -/
def buildFormattedReport (period : String) (rd : ReportData) : List RLine :=
  [.header period, .separator, .overviewHdr,
   .totalIncomeLine rd.incomeTotal, .totalExpensesLine rd.expenseTotal,
   .netSavingsLine rd.netSavings]
  ++ (if (Q.ofInt 0).blt rd.incomeTotal then [.savingsRateLine rd.savingsRate] else [])
  ++ [.txCountLine rd.transactionCount, .blank]
  ++ (if rd.incomeBreakdown.isEmpty then []
      else .incomeHdr ::
        (rd.incomeBreakdown.take 3).map (fun p => .incomeItem p.1 p.2) ++ [.blank])
  ++ (if rd.expenseBreakdown.isEmpty then []
      else .expenseHdr ::
        (rd.expenseBreakdown.take 3).map (fun p => .expenseItem p.1 p.2) ++ [.blank])
  ++ [.insightsHdr]
  ++ (match rd.biggestExpense with
      | some r => [.biggestExpenseLine r.amount r.description]
      | none => [])
  ++ (match rd.topCategory with
      | some (c, q) => [.topCategoryLine c q]
      | none => [])
  ++ (if (Q.ofInt 0).blt rd.incomeTotal then [.titheLine rd.titheRecommendation] else [])
  ++ [.blank]
  ++ [if (Q.ofInt 0).blt rd.netSavings then .healthPositive
      else if rd.netSavings.beqv (Q.ofInt 0) then .healthBreakEven
      else .healthNegative]
  ++ [.blank, .footer]

/-- Embeds `generate_report`: the two no-transaction short circuits,
otherwise the joined rendered lines. -/
def generateReport (now : Int) (rows : List TxRow) (period : String) : String :=
  if rows.isEmpty then
    "📊 *" ++ period ++ " Financial Summary*\n\nNo transactions found for this period. Start logging your income and expenses to see insights!"
  else
    match computeReport now rows period with
    | none => "📊 *" ++ period ++ " Financial Summary*\n\nNo transactions found for this period."
    | some rd =>
      String.intercalate "\n" ((buildFormattedReport period rd).map RLine.render)

/-- Embeds `_filter_transactions_by_period_fixed` of `sheets/handler.py`:
Manila-calendar cutoffs for the three recognized periods; any other
period returns the frame unchanged. -/
def filterTransactionsByPeriodFixed (now : Int) (period : String)
    (rows : List SheetRow) : List SheetRow :=
  if period = "Today" then rows.filter (fun r => dayStartTs now ≤ r.timestamp)
  else if period = "This Week" then rows.filter (fun r => weekStartTs now ≤ r.timestamp)
  else if period = "This Month" then rows.filter (fun r => monthStartTs now ≤ r.timestamp)
  else rows

/-- The report metrics at the C7 instance (income Salary 1000, expense
Food 300, both in week), written out. -/
def rdC7 : ReportData :=
  { incomeTotal := ⟨1000, 0⟩
    expenseTotal := ⟨300, 0⟩
    netSavings := ⟨700, 0⟩
    biggestExpense := some ⟨0, "expense", "Food", "Groceries", Q.ofInt 300⟩
    topCategory := some ("Food", ⟨300, 0⟩)
    incomeBreakdown := [("Salary", ⟨1000, 0⟩)]
    expenseBreakdown := [("Food", ⟨300, 0⟩)]
    titheRecommendation := ⟨1000, 9⟩
    savingsRate := ⟨70000, 999⟩
    transactionCount := 2 }

/-- The C8 instance: expenses Food 100, Food 50, Transport 80. -/
def rowsC8 : List TxRow :=
  [⟨0, "expense", "Food", "Groceries", Q.ofInt 100⟩,
   ⟨0, "expense", "Food", "Snacks", Q.ofInt 50⟩,
   ⟨0, "expense", "Transport", "Bus", Q.ofInt 80⟩]


/-! ## Helper lemmas -/

theorem Q.den_pos (a : Q) : 0 < a.den := by
  simp only [Q.den]; positivity

theorem Q.den_cast_pos (a : Q) : (0 : ℚ) < (a.den : ℚ) := by
  exact_mod_cast a.den_pos

theorem Q.den_cast_ne (a : Q) : ((a.den : ℚ)) ≠ 0 := ne_of_gt a.den_cast_pos

theorem Q.val_ofInt (n : Int) : (Q.ofInt n).val = (n : ℚ) := by
  simp [Q.val, Q.ofInt, Q.den]

theorem Q.val_add (a b : Q) : (a.add b).val = a.val + b.val := by
  have ha : ((a.pden : ℚ) + 1) ≠ 0 := by positivity
  have hb : ((b.pden : ℚ) + 1) ≠ 0 := by positivity
  simp only [Q.val, Q.add, Q.den]
  push_cast
  field_simp
  ring_nf
  try exact Or.inl trivial

theorem Q.val_sub (a b : Q) : (a.sub b).val = a.val - b.val := by
  have ha : ((a.pden : ℚ) + 1) ≠ 0 := by positivity
  have hb : ((b.pden : ℚ) + 1) ≠ 0 := by positivity
  simp only [Q.val, Q.sub, Q.den]
  push_cast
  field_simp
  ring

theorem Q.val_mul (a b : Q) : (a.mul b).val = a.val * b.val := by
  have ha : ((a.pden : ℚ) + 1) ≠ 0 := by positivity
  have hb : ((b.pden : ℚ) + 1) ≠ 0 := by positivity
  simp only [Q.val, Q.mul, Q.den]
  push_cast
  field_simp
  ring_nf
  try exact Or.inl trivial

theorem Q.ble_iff (a b : Q) : a.ble b = true ↔ a.val ≤ b.val := by
  simp only [Q.ble, Q.val, decide_eq_true_eq]
  rw [div_le_div_iff (Q.den_cast_pos a) (Q.den_cast_pos b)]
  constructor
  · intro h; exact_mod_cast h
  · intro h; exact_mod_cast h

theorem Q.blt_iff (a b : Q) : a.blt b = true ↔ a.val < b.val := by
  simp only [Q.blt, Q.val, decide_eq_true_eq]
  rw [div_lt_div_iff (Q.den_cast_pos a) (Q.den_cast_pos b)]
  constructor
  · intro h; exact_mod_cast h
  · intro h; exact_mod_cast h


theorem isPrefixOf_head {c : Char} {p l : List Char}
    (h : List.isPrefixOf (c :: p) l = true) : ∃ t, l = c :: t := by
  cases l with
  | nil => simp [List.isPrefixOf] at h
  | cons b bs =>
    simp only [List.isPrefixOf, Bool.and_eq_true, beq_iff_eq] at h
    exact ⟨bs, by rw [h.1]⟩

theorem strStartsWith_head {s p : String} {c : Char} {pt : List Char}
    (hp : p.toList = c :: pt) (h : strStartsWith s p = true) :
    ∃ t, s.toList = c :: t := by
  unfold strStartsWith at h
  rw [hp] at h
  exact isPrefixOf_head h

theorem strStartsWith_false_of_head {s q : String} {c d : Char} {t qt : List Char}
    (hs : s.toList = c :: t) (hq : q.toList = d :: qt) (hne : d ≠ c) :
    strStartsWith s q = false := by
  unfold strStartsWith
  rw [hq, hs]
  simp [List.isPrefixOf, hne]

theorem Q.beqv_iff (a b : Q) : a.beqv b = true ↔ a.val = b.val := by
  simp only [Q.beqv, Q.val, decide_eq_true_eq]
  rw [div_eq_div_iff (Q.den_cast_ne a) (Q.den_cast_ne b)]
  constructor
  · intro h; exact_mod_cast h
  · intro h; exact_mod_cast h

theorem Q.blt_zero_iff (a : Q) : (Q.ofInt 0).blt a = true ↔ 0 < a.val := by
  rw [Q.blt_iff, Q.val_ofInt]
  norm_num

theorem Q.ble_zero_iff (a : Q) : a.ble (Q.ofInt 0) = true ↔ a.val ≤ 0 := by
  rw [Q.ble_iff, Q.val_ofInt]
  norm_num

/-! ## Claim C2 -/

/-- C2 counterexample: the input "nan" is non-numeric (its cleaned form is
the float NaN, not a finite decimal), yet `_parse_amount` returns it as a
valid result, because `nan <= 0` and `nan > 1_000_000` are both false in
float comparison.  This falsifies the claim that validity holds if and
only if the parsed value `v` satisfies `0 < v <= 1_000_000` and that
non-numeric inputs are rejected. -/
theorem claimC2_counterexample :
    pyFloatOfString (cleanAmount "nan") = some PyFloat.nan ∧
    parseAmount "nan" = some PyFloat.nan ∧ parseAmount "nan" ≠ none := by
  refine ⟨by decide, by decide, by decide⟩

/-- C2 (amended): the amount parser strips currency symbols, commas and
whitespace and parses the remainder with `float`; a finite parsed value
`v` is accepted if and only if `0 < v ≤ 1,000,000`, returning `v` rounded
half-even to two decimals; infinities, signed zeros/negatives,
out-of-range and unparseable inputs are rejected — but an input parsing
to NaN is returned as NaN rather than rejected. -/
theorem claimC2 (s : String) :
    parseAmount s =
      (match pyFloatOfString (cleanAmount s) with
       | none => none
       | some (.finite q) =>
         if 0 < q.val ∧ q.val ≤ 1000000 then some (.finite (Q.roundTo 2 q))
         else none
       | some .pinf => none
       | some .ninf => none
       | some .nan => some .nan) := by
  unfold parseAmount
  cases h : pyFloatOfString (cleanAmount s) with
  | none => rfl
  | some a =>
    cases a with
    | pinf => rfl
    | ninf => rfl
    | nan => rfl
    | finite q =>
      simp only [PyFloat.le, PyFloat.lt, PyFloat.round2]
      cases hb : (q.ble (Q.ofInt 0) || (Q.ofInt 1000000).blt q) with
      | true =>
        rw [Bool.or_eq_true] at hb
        have hnot : ¬(0 < q.val ∧ q.val ≤ 1000000) := by
          rcases hb with hle | hlt
          · rw [Q.ble_zero_iff] at hle
            rintro ⟨h0, _⟩; linarith
          · rw [Q.blt_iff, Q.val_ofInt] at hlt
            rintro ⟨_, hle2⟩
            have : ((1000000 : ℤ) : ℚ) = (1000000 : ℚ) := by norm_num
            rw [this] at hlt; linarith
        simp [if_neg hnot]
      | false =>
        rw [Bool.or_eq_false_iff] at hb
        have hyes : 0 < q.val ∧ q.val ≤ 1000000 := by
          obtain ⟨hle, hlt⟩ := hb
          constructor
          · by_contra hn
            exact absurd (Q.ble_zero_iff q |>.mpr (le_of_not_lt hn))
              (by rw [hle]; simp)
          · by_contra hn
            have : (1000000 : ℚ) < q.val := lt_of_not_le hn
            have h6 : (Q.ofInt 1000000).blt q = true := by
              rw [Q.blt_iff, Q.val_ofInt]
              have hc : ((1000000 : ℤ) : ℚ) = (1000000 : ℚ) := by norm_num
              rw [hc]; exact this
            rw [hlt] at h6; exact absurd h6 (by simp)
        simp [if_pos hyes]

/-! ## Claim C3 -/

/-- C3: a `Selection` whose tag is none of the recognized menu payloads
and carries none of the recognized prefixes is answered by the generic
error message; the session (state and pending data) is untouched and
nothing is appended, in every state and environment. -/
theorem claimC3 (env : Env) (uid : String) (sess : Session) (payload : String)
    (h1 : payload ≠ "LOG_EXPENSE") (h2 : payload ≠ "LOG_INCOME")
    (h3 : payload ≠ "VIEW_STATS")
    (h4 : strStartsWith payload "CATEGORY_" = false)
    (h5 : strStartsWith payload "SOURCE_" = false)
    (h6 : strStartsWith payload "PERIOD_" = false) :
    handleEvent env uid sess (.quickReply payload) =
      (sess, [], [.typing, .errorMsg "general"]) := by
  simp [handleEvent, handleQuickReply, h1, h2, h3, h4, h5, h6]

/-- C3 witness: the unrecognized tag "RESTART" in a mid-flow state. -/
theorem claimC3_witness :
    handleEvent ⟨0, true, .ok []⟩ "u" ⟨.waitingExpenseAmount, {}⟩
        (.quickReply "RESTART") =
      (⟨.waitingExpenseAmount, {}⟩, [], [.typing, .errorMsg "general"]) :=
  claimC3 _ _ _ _ (by decide) (by decide) (by decide) (by decide) (by decide)
    (by decide)

/-! ## Claim C10 -/

/-- C10: quick-reply dispatch never consults the conversation state: in
every state, a `CATEGORY_`-tagged selection stores the mapped expense
category and moves to `WAITING_EXPENSE_DESCRIPTION`, and a
`SOURCE_`-tagged selection stores the mapped income source and moves to
`WAITING_INCOME_DESCRIPTION`; neither appends anything. -/
theorem claimC10 (env : Env) (uid : String) (sess : Session) (payload : String) :
    (strStartsWith payload "CATEGORY_" = true →
      (handleEvent env uid sess (.quickReply payload)).1 =
        ⟨.waitingExpenseDescription,
         { sess.data with expenseCategory := some (categoryMap payload) }⟩ ∧
      (handleEvent env uid sess (.quickReply payload)).2.1 = []) ∧
    (strStartsWith payload "SOURCE_" = true →
      (handleEvent env uid sess (.quickReply payload)).1 =
        ⟨.waitingIncomeDescription,
         { sess.data with incomeSource := some (sourceMap payload) }⟩ ∧
      (handleEvent env uid sess (.quickReply payload)).2.1 = []) := by
  constructor
  · intro hcat
    obtain ⟨t, ht⟩ := strStartsWith_head
      (show "CATEGORY_".toList = 'C' :: "ATEGORY_".toList by decide) hcat
    have e1 : payload ≠ "LOG_EXPENSE" := by
      intro e; rw [e] at hcat; exact absurd hcat (by decide)
    have e2 : payload ≠ "LOG_INCOME" := by
      intro e; rw [e] at hcat; exact absurd hcat (by decide)
    have e3 : payload ≠ "VIEW_STATS" := by
      intro e; rw [e] at hcat; exact absurd hcat (by decide)
    simp [handleEvent, handleQuickReply, handleExpenseCategorySelection,
      e1, e2, e3, hcat]
  · intro hsrc
    obtain ⟨t, ht⟩ := strStartsWith_head
      (show "SOURCE_".toList = 'S' :: "OURCE_".toList by decide) hsrc
    have hcat : strStartsWith payload "CATEGORY_" = false :=
      strStartsWith_false_of_head ht
        (show "CATEGORY_".toList = 'C' :: "ATEGORY_".toList by decide) (by decide)
    have e1 : payload ≠ "LOG_EXPENSE" := by
      intro e; rw [e] at hsrc; exact absurd hsrc (by decide)
    have e2 : payload ≠ "LOG_INCOME" := by
      intro e; rw [e] at hsrc; exact absurd hsrc (by decide)
    have e3 : payload ≠ "VIEW_STATS" := by
      intro e; rw [e] at hsrc; exact absurd hsrc (by decide)
    simp [handleEvent, handleQuickReply, handleIncomeSourceSelection,
      e1, e2, e3, hcat, hsrc]

/-- C10 witness: a category selection and a source selection issued while
the user is waiting for a statistics period, far from the category flow. -/
theorem claimC10_witness :
    ((handleEvent ⟨0, true, .ok []⟩ "u" ⟨.waitingStatsPeriod, {}⟩
        (.quickReply "CATEGORY_FOOD")).1 =
      ⟨.waitingExpenseDescription,
       { expenseCategory := some "Food" }⟩ ∧
     (handleEvent ⟨0, true, .ok []⟩ "u" ⟨.waitingStatsPeriod, {}⟩
        (.quickReply "CATEGORY_FOOD")).2.1 = []) ∧
    ((handleEvent ⟨0, true, .ok []⟩ "u" ⟨.waitingStatsPeriod, {}⟩
        (.quickReply "SOURCE_SALARY")).1 =
      ⟨.waitingIncomeDescription,
       { incomeSource := some "Salary" }⟩ ∧
     (handleEvent ⟨0, true, .ok []⟩ "u" ⟨.waitingStatsPeriod, {}⟩
        (.quickReply "SOURCE_SALARY")).2.1 = []) :=
  ⟨(claimC10 ⟨0, true, .ok []⟩ "u" ⟨.waitingStatsPeriod, {}⟩ "CATEGORY_FOOD").1
     (by decide),
   (claimC10 ⟨0, true, .ok []⟩ "u" ⟨.waitingStatsPeriod, {}⟩ "SOURCE_SALARY").2
     (by decide)⟩

/-! ## Claim C5 -/

/-- C5 counterexample: with the storage read raising during report
generation, a `PERIOD_WEEK` selection in `WAITING_STATS_PERIOD` sends the
generic error message but leaves the conversation in
`WAITING_STATS_PERIOD` — it does not reset to `IDLE` as the claim states
(`_generate_and_send_report` only resets on its success paths). -/
theorem claimC5_counterexample :
    (handleEvent ⟨0, true, .error ()⟩ "u" ⟨.waitingStatsPeriod, {}⟩
        (.quickReply "PERIOD_WEEK")).1.state = ConvState.waitingStatsPeriod ∧
    (handleEvent ⟨0, true, .error ()⟩ "u" ⟨.waitingStatsPeriod, {}⟩
        (.quickReply "PERIOD_WEEK")).1.state ≠ ConvState.idle ∧
    (handleEvent ⟨0, true, .error ()⟩ "u" ⟨.waitingStatsPeriod, {}⟩
        (.quickReply "PERIOD_WEEK")).2.2 = [Msg.typing, Msg.errorMsg "general"] := by
  refine ⟨by decide, by decide, by decide⟩

/-- C5 (amended): if the storage read fails while handling a `PERIOD_*`
selection, the user receives the generic error message and the
conversation keeps its current state and pending data (in particular it
remains in `WAITING_STATS_PERIOD`); it is not reset to `IDLE`, and
nothing is appended. -/
theorem claimC5 (env : Env) (uid : String) (sess : Session) (payload : String)
    (hp : strStartsWith payload "PERIOD_" = true)
    (hr : env.readResult = .error ()) :
    handleEvent env uid sess (.quickReply payload) =
      (sess, [], [.typing, .errorMsg "general"]) := by
  obtain ⟨t, ht⟩ := strStartsWith_head
    (show "PERIOD_".toList = 'P' :: "ERIOD_".toList by decide) hp
  have hcat : strStartsWith payload "CATEGORY_" = false :=
    strStartsWith_false_of_head ht
      (show "CATEGORY_".toList = 'C' :: "ATEGORY_".toList by decide) (by decide)
  have hsrc : strStartsWith payload "SOURCE_" = false :=
    strStartsWith_false_of_head ht
      (show "SOURCE_".toList = 'S' :: "OURCE_".toList by decide) (by decide)
  have e1 : payload ≠ "LOG_EXPENSE" := by
    intro e; rw [e] at hp; exact absurd hp (by decide)
  have e2 : payload ≠ "LOG_INCOME" := by
    intro e; rw [e] at hp; exact absurd hp (by decide)
  have e3 : payload ≠ "VIEW_STATS" := by
    intro e; rw [e] at hp; exact absurd hp (by decide)
  simp [handleEvent, handleQuickReply, handleStatsPeriodSelection,
    generateAndSendReport, e1, e2, e3, hcat, hsrc, hp, hr]

/-- C5 witness: the amended behaviour at the counterexample's input. -/
theorem claimC5_witness :
    handleEvent ⟨0, true, .error ()⟩ "u" ⟨.waitingStatsPeriod, {}⟩
        (.quickReply "PERIOD_WEEK") =
      (⟨.waitingStatsPeriod, {}⟩, [], [.typing, .errorMsg "general"]) :=
  claimC5 ⟨0, true, .error ()⟩ "u" ⟨.waitingStatsPeriod, {}⟩ "PERIOD_WEEK"
    (by decide) rfl

/-! ## Engine step helper lemmas -/

theorem handleQuickReply_category (env : Env) (uid : String) (sess : Session)
    (payload : String) (hcat : strStartsWith payload "CATEGORY_" = true) :
    handleQuickReply env uid sess payload =
      handleExpenseCategorySelection sess payload := by
  have e1 : payload ≠ "LOG_EXPENSE" := by
    intro e; rw [e] at hcat; exact absurd hcat (by decide)
  have e2 : payload ≠ "LOG_INCOME" := by
    intro e; rw [e] at hcat; exact absurd hcat (by decide)
  have e3 : payload ≠ "VIEW_STATS" := by
    intro e; rw [e] at hcat; exact absurd hcat (by decide)
  simp [handleQuickReply, e1, e2, e3, hcat]

theorem logExpenseTransaction_fail (env : Env) (uid : String) (amount : PyFloat)
    (desc cat : String) (hF : env.storageOk = false) :
    logExpenseTransaction env uid amount desc cat = (false, []) := by
  unfold logExpenseTransaction logTransaction
  split_ifs <;> simp_all

theorem logIncomeTransaction_fail (env : Env) (uid : String) (amount : PyFloat)
    (desc src : String) (hF : env.storageOk = false) :
    logIncomeTransaction env uid amount desc src = (false, []) := by
  unfold logIncomeTransaction logTransaction
  split_ifs <;> simp_all

theorem logExpenseTransaction_ok (env : Env) (uid : String) (amount : PyFloat)
    (desc cat : String) (hS : env.storageOk = true)
    (hpos : amount.le (.finite (Q.ofInt 0)) = false)
    (hc : cat ≠ "") (hd : desc ≠ "") :
    logExpenseTransaction env uid amount desc cat =
      (true, [⟨env.now, "expense", cat, desc, amount, uid⟩]) := by
  unfold logExpenseTransaction logTransaction
  rw [if_neg (by simp : ¬("expense" ≠ "income" ∧ "expense" ≠ "expense"))]
  rw [hpos]
  simp only [Bool.false_eq_true, if_false]
  rw [if_neg (not_or.mpr ⟨hc, hd⟩), if_pos hS]

theorem logIncomeTransaction_ok (env : Env) (uid : String) (amount : PyFloat)
    (desc src : String) (hS : env.storageOk = true)
    (hpos : amount.le (.finite (Q.ofInt 0)) = false)
    (hc : src ≠ "") (hd : desc ≠ "") :
    logIncomeTransaction env uid amount desc src =
      (true, [⟨env.now, "income", src, desc, amount, uid⟩]) := by
  unfold logIncomeTransaction logTransaction
  rw [if_neg (by simp : ¬("income" ≠ "income" ∧ "income" ≠ "expense"))]
  rw [hpos]
  simp only [Bool.false_eq_true, if_false]
  rw [if_neg (not_or.mpr ⟨hc, hd⟩), if_pos hS]

theorem categoryMap_ne_empty (payload : String) : categoryMap payload ≠ "" := by
  unfold categoryMap
  split_ifs <;> decide

theorem ne_empty_of_two_le {t : String} (h : 2 ≤ t.length) : t ≠ "" := by
  intro e
  rw [e] at h
  exact absurd h (by decide)

/-! ## Claim C1 -/

/-- C1 counterexample: the text "0.004" parses to a valid amount (the
parser accepts it, returning its two-decimal rounding `0.00`), yet the
complete expense flow with it appends no transaction and does not return
to IDLE: `log_transaction` rejects the rounded zero amount, the handler
reports a storage error, and the session stays in
`WAITING_EXPENSE_AMOUNT`. -/
theorem claimC1_counterexample :
    parseAmount "0.004" = some (.finite ⟨0, 99⟩) ∧
    (runEvents ⟨0, true, .ok []⟩ "u" ⟨.idle, {}⟩
        [.quickReply "CATEGORY_FOOD", .textMsg "Lunch", .textMsg "0.004"]).2.1 = [] ∧
    (runEvents ⟨0, true, .ok []⟩ "u" ⟨.idle, {}⟩
        [.quickReply "CATEGORY_FOOD", .textMsg "Lunch", .textMsg "0.004"]).1.state ≠
      ConvState.idle := by
  refine ⟨by decide, by decide, by decide⟩

/-- C1 (amended): for every run from IDLE through a category selection, a
description whose stripped length is at least 2, and a text the amount
parser accepts with a parsed (rounded) amount that is still positive in
float comparison, exactly one row is appended — `type=expense`, the
mapped category, the stripped description, the parsed amount — the
confirmation is sent, and the session returns to IDLE with empty pending
data. -/
theorem claimC1 (env : Env) (uid : String) (d0 : PendingData)
    (payload tdesc tamt : String) (q : PyFloat)
    (hok : env.storageOk = true)
    (hcat : strStartsWith payload "CATEGORY_" = true)
    (hdesc : 2 ≤ (strStrip tdesc).length)
    (hamt : parseAmount tamt = some q)
    (hpos : q.le (.finite (Q.ofInt 0)) = false) :
    (runEvents env uid ⟨.idle, d0⟩
        [.quickReply payload, .textMsg tdesc, .textMsg tamt]).1 = Session.init ∧
    (runEvents env uid ⟨.idle, d0⟩
        [.quickReply payload, .textMsg tdesc, .textMsg tamt]).2.1 =
      [⟨env.now, "expense", categoryMap payload, strStrip tdesc, q, uid⟩] ∧
    Msg.confirmation "expense" q (strStrip tdesc) (categoryMap payload) ∈
      (runEvents env uid ⟨.idle, d0⟩
        [.quickReply payload, .textMsg tdesc, .textMsg tamt]).2.2 := by
  have hlog := logExpenseTransaction_ok env uid q (strStrip tdesc)
    (categoryMap payload) hok hpos (categoryMap_ne_empty payload)
    (ne_empty_of_two_le hdesc)
  simp only [runEvents, handleEvent,
    handleQuickReply_category env uid ⟨.idle, d0⟩ payload hcat,
    handleExpenseCategorySelection, handleTextMessage, handleExpenseDescription,
    if_neg (Nat.not_lt.mpr hdesc), handleExpenseAmount, hamt, Option.getD_some,
    hlog, if_pos rfl]
  simp

/-- C1 witness: the complete flow Food / "Lunch" / "150". -/
theorem claimC1_witness :
    (runEvents ⟨7, true, .ok []⟩ "u" ⟨.idle, {}⟩
        [.quickReply "CATEGORY_FOOD", .textMsg "Lunch", .textMsg "150"]).1 =
      Session.init ∧
    (runEvents ⟨7, true, .ok []⟩ "u" ⟨.idle, {}⟩
        [.quickReply "CATEGORY_FOOD", .textMsg "Lunch", .textMsg "150"]).2.1 =
      [⟨7, "expense", categoryMap "CATEGORY_FOOD", strStrip "Lunch",
        .finite ⟨15000, 99⟩, "u"⟩] ∧
    Msg.confirmation "expense" (.finite ⟨15000, 99⟩) (strStrip "Lunch")
        (categoryMap "CATEGORY_FOOD") ∈
      (runEvents ⟨7, true, .ok []⟩ "u" ⟨.idle, {}⟩
        [.quickReply "CATEGORY_FOOD", .textMsg "Lunch", .textMsg "150"]).2.2 :=
  claimC1 ⟨7, true, .ok []⟩ "u" {} "CATEGORY_FOOD" "Lunch" "150"
    (.finite ⟨15000, 99⟩) rfl (by decide) (by decide) (by decide) (by decide)

/-! ## Claim C4 -/

/-- C4 counterexample: after a storage-append failure in
`WAITING_EXPENSE_AMOUNT` (pending Food / Lunch intact), resubmitting
"0.004" — a valid amount by the parsing contract — does not complete the
transaction even though storage now works: the parser rounds it to 0.00,
`log_transaction` rejects the non-positive amount, the handler sends the
storage-error message again, appends nothing, and stays in
`WAITING_EXPENSE_AMOUNT`.  This falsifies the claim's clause that
resubmitting a valid amount still completes the transaction. -/
theorem claimC4_counterexample :
    parseAmount "0.004" = some (.finite ⟨0, 99⟩) ∧
    handleEvent ⟨0, false, .ok []⟩ "u"
        ⟨.waitingExpenseAmount, ⟨some "Food", some "Lunch", none, none⟩⟩
        (.textMsg "150") =
      (⟨.waitingExpenseAmount, ⟨some "Food", some "Lunch", none, none⟩⟩,
       [], [.typing, .errorMsg "sheets_error"]) ∧
    handleEvent ⟨0, true, .ok []⟩ "u"
        ⟨.waitingExpenseAmount, ⟨some "Food", some "Lunch", none, none⟩⟩
        (.textMsg "0.004") =
      (⟨.waitingExpenseAmount, ⟨some "Food", some "Lunch", none, none⟩⟩,
       [], [.typing, .errorMsg "sheets_error"]) := by
  refine ⟨by decide, by decide, by decide⟩

/-- C4 (amended): if the storage append fails while a valid amount is
submitted in `WAITING_EXPENSE_AMOUNT` or `WAITING_INCOME_AMOUNT`, the
storage-error message is sent, nothing is appended, and the session —
state and pending data — is exactly as before; resubmitting a valid
amount whose two-decimal rounding is still positive, once storage works,
completes the transaction with the originally stored category/source and
description, without re-asking for them. -/
theorem claimC4 (envF envS : Env) (uid : String) (data : PendingData)
    (t1 t2 : String) (q1 q2 : PyFloat)
    (hF : envF.storageOk = false) (hS : envS.storageOk = true)
    (h1 : parseAmount t1 = some q1) (h2 : parseAmount t2 = some q2)
    (hq2 : q2.le (.finite (Q.ofInt 0)) = false) :
    (handleEvent envF uid ⟨.waitingExpenseAmount, data⟩ (.textMsg t1) =
      (⟨.waitingExpenseAmount, data⟩, [], [.typing, .errorMsg "sheets_error"])) ∧
    (data.expenseCategory.getD "Other" ≠ "" →
     data.expenseDescription.getD "Expense" ≠ "" →
      handleEvent envS uid ⟨.waitingExpenseAmount, data⟩ (.textMsg t2) =
        (Session.init,
         [⟨envS.now, "expense", data.expenseCategory.getD "Other",
           data.expenseDescription.getD "Expense", q2, uid⟩],
         [.typing, .confirmation "expense" q2 (data.expenseDescription.getD "Expense")
           (data.expenseCategory.getD "Other")])) ∧
    (handleEvent envF uid ⟨.waitingIncomeAmount, data⟩ (.textMsg t1) =
      (⟨.waitingIncomeAmount, data⟩, [], [.typing, .errorMsg "sheets_error"])) ∧
    (data.incomeSource.getD "Other" ≠ "" →
     data.incomeDescription.getD "Income" ≠ "" →
      handleEvent envS uid ⟨.waitingIncomeAmount, data⟩ (.textMsg t2) =
        (Session.init,
         [⟨envS.now, "income", data.incomeSource.getD "Other",
           data.incomeDescription.getD "Income", q2, uid⟩],
         [.typing, .confirmation "income" q2 (data.incomeDescription.getD "Income")
           (data.incomeSource.getD "Other")])) := by
  refine ⟨?_, ?_, ?_, ?_⟩
  · simp only [handleEvent, handleTextMessage, handleExpenseAmount, h1,
      logExpenseTransaction_fail envF uid q1 _ _ hF]
    simp
  · intro hc hd
    simp only [handleEvent, handleTextMessage, handleExpenseAmount, h2,
      logExpenseTransaction_ok envS uid q2 _ _ hS hq2 hc hd]
    simp
  · simp only [handleEvent, handleTextMessage, handleIncomeAmount, h1,
      logIncomeTransaction_fail envF uid q1 _ _ hF]
    simp
  · intro hc hd
    simp only [handleEvent, handleTextMessage, handleIncomeAmount, h2,
      logIncomeTransaction_ok envS uid q2 _ _ hS hq2 hc hd]
    simp

/-- C4 witness: a failed then successful "150" submission, with the
pending Food / Lunch (and Salary / Wages) data intact throughout. -/
theorem claimC4_witness :
    (handleEvent ⟨0, false, .ok []⟩ "u"
        ⟨.waitingExpenseAmount, ⟨some "Food", some "Lunch", some "Salary", some "Wages"⟩⟩
        (.textMsg "150") =
      (⟨.waitingExpenseAmount, ⟨some "Food", some "Lunch", some "Salary", some "Wages"⟩⟩,
       [], [.typing, .errorMsg "sheets_error"])) ∧
    (handleEvent ⟨9, true, .ok []⟩ "u"
        ⟨.waitingExpenseAmount, ⟨some "Food", some "Lunch", some "Salary", some "Wages"⟩⟩
        (.textMsg "150") =
      (Session.init,
       [⟨9, "expense",
         (Option.getD (some "Food") "Other"), (Option.getD (some "Lunch") "Expense"),
         .finite ⟨15000, 99⟩, "u"⟩],
       [.typing, .confirmation "expense" (.finite ⟨15000, 99⟩)
         (Option.getD (some "Lunch") "Expense") (Option.getD (some "Food") "Other")])) ∧
    (handleEvent ⟨0, false, .ok []⟩ "u"
        ⟨.waitingIncomeAmount, ⟨some "Food", some "Lunch", some "Salary", some "Wages"⟩⟩
        (.textMsg "150") =
      (⟨.waitingIncomeAmount, ⟨some "Food", some "Lunch", some "Salary", some "Wages"⟩⟩,
       [], [.typing, .errorMsg "sheets_error"])) ∧
    (handleEvent ⟨9, true, .ok []⟩ "u"
        ⟨.waitingIncomeAmount, ⟨some "Food", some "Lunch", some "Salary", some "Wages"⟩⟩
        (.textMsg "150") =
      (Session.init,
       [⟨9, "income",
         (Option.getD (some "Salary") "Other"), (Option.getD (some "Wages") "Income"),
         .finite ⟨15000, 99⟩, "u"⟩],
       [.typing, .confirmation "income" (.finite ⟨15000, 99⟩)
         (Option.getD (some "Wages") "Income") (Option.getD (some "Salary") "Other")])) := by
  have h := claimC4 ⟨0, false, .ok []⟩ ⟨9, true, .ok []⟩ "u"
    ⟨some "Food", some "Lunch", some "Salary", some "Wages"⟩ "150" "150"
    (.finite ⟨15000, 99⟩) (.finite ⟨15000, 99⟩) rfl rfl (by decide) (by decide)
    (by decide)
  exact ⟨h.1, h.2.1 (by decide) (by decide), h.2.2.1,
    h.2.2.2 (by decide) (by decide)⟩

/-! ## Claim C9 -/

/-- C9: for a period selector that is none of the recognized names, the
stand-alone analytics filter (`_filter_by_period`) applies a trailing
7-day window, while the record-store filter
(`_filter_transactions_by_period_fixed`) applies no filtering at all. -/
theorem claimC9 (now : Int) (p : String) (grows : List TxRow)
    (srows : List SheetRow)
    (h1 : p ≠ "Today") (h2 : p ≠ "This Week") (h3 : p ≠ "This Month") :
    filterByPeriod now p grows =
      grows.filter (fun r => decide (now - 7 * 86400 ≤ r.timestamp)) ∧
    filterTransactionsByPeriodFixed now p srows = srows := by
  constructor
  · simp [filterByPeriod, h2, h3]
  · simp [filterTransactionsByPeriodFixed, h1, h2, h3]

/-- C9 witness: the unrecognized selector "All Time" — the analytics path
drops a row nine days old and keeps one three days old, while the fixed
path returns both untouched. -/
theorem claimC9_witness :
    filterByPeriod 1000000 "All Time"
        [⟨1000000 - 9 * 86400, "expense", "Food", "old", Q.ofInt 5⟩,
         ⟨1000000 - 3 * 86400, "expense", "Food", "new", Q.ofInt 6⟩] =
      ([⟨1000000 - 9 * 86400, "expense", "Food", "old", Q.ofInt 5⟩,
        ⟨1000000 - 3 * 86400, "expense", "Food", "new", Q.ofInt 6⟩].filter
          (fun r => decide (1000000 - 7 * 86400 ≤ r.timestamp))) ∧
    filterTransactionsByPeriodFixed 1000000 "All Time"
        [⟨1000000 - 9 * 86400, "expense", "Food", "old", .finite (Q.ofInt 5), "u"⟩] =
      [⟨1000000 - 9 * 86400, "expense", "Food", "old", .finite (Q.ofInt 5), "u"⟩] :=
  claimC9 1000000 "All Time" _ _ (by decide) (by decide) (by decide)

/-! ## Claim C6 -/

/-- C6: for a nonempty record set all timestamped at or after the most
recent Monday 00:00:00 of the (UTC+8 civil) clock instant `now`,
`generate_report(..., "This Week")` retains every record: its income and
expense totals are the totals over the whole input, and every record is
counted.  For a set timestamped strictly before that Monday, the filter
retains nothing and the report computation short-circuits to the
no-transactions result. -/
theorem claimC6 (now : Int) (rowsIn rowsOut : List TxRow)
    (hin : ∀ r ∈ rowsIn, weekStartTs now ≤ r.timestamp)
    (hne : rowsIn ≠ [])
    (hout : ∀ r ∈ rowsOut, r.timestamp < weekStartTs now) :
    (∃ rd, computeReport now rowsIn "This Week" = some rd ∧
       rd.incomeTotal = totalIncome rowsIn ∧
       rd.expenseTotal = totalExpenses rowsIn ∧
       rd.transactionCount = rowsIn.length) ∧
    filterByPeriod now "This Week" rowsOut = [] ∧
    computeReport now rowsOut "This Week" = none := by
  have hfilt : filterByPeriod now "This Week" rowsIn = rowsIn := by
    simp only [filterByPeriod, if_pos rfl]
    exact List.filter_eq_self.mpr (fun a ha => decide_eq_true (hin a ha))
  have hfo : filterByPeriod now "This Week" rowsOut = [] := by
    simp only [filterByPeriod, if_pos rfl]
    refine List.filter_eq_nil.mpr (fun a ha => ?_)
    simp only [decide_eq_true_eq]
    exact not_le.mpr (hout a ha)
  have hnem : rowsIn.isEmpty = false := by
    cases rowsIn with
    | nil => exact absurd rfl hne
    | cons a as => rfl
  have hcr : computeReport now rowsIn "This Week" = some
      { incomeTotal := totalIncome rowsIn
        expenseTotal := totalExpenses rowsIn
        netSavings := (totalIncome rowsIn).sub (totalExpenses rowsIn)
        biggestExpense := findBiggestExpense rowsIn
        topCategory := findTopExpenseCategory rowsIn
        incomeBreakdown := incomeBreakdown rowsIn
        expenseBreakdown := expenseBreakdown rowsIn
        titheRecommendation := (totalIncome rowsIn).mul ⟨1, 9⟩
        savingsRate :=
          if (Q.ofInt 0).blt (totalIncome rowsIn) then
            (((totalIncome rowsIn).sub (totalExpenses rowsIn)).div
              (totalIncome rowsIn)).mul (Q.ofInt 100)
          else Q.ofInt 0
        transactionCount := rowsIn.length } := by
    simp only [computeReport, hnem, Bool.false_eq_true, if_false, hfilt]
  refine ⟨⟨_, hcr, rfl, rfl, rfl⟩, hfo, ?_⟩
  cases rowsOut with
  | nil => simp [computeReport]
  | cons a as => simp [computeReport, hfo]

/-- C6 witness: one in-week record (income, at the reference instant) and
one record dated a million seconds before the week start. -/
theorem claimC6_witness :
    (∃ rd : ReportData, computeReport 0
        [⟨0, "income", "Salary", "pay", Q.ofInt 100⟩] "This Week" = some rd ∧
       rd.incomeTotal = totalIncome [⟨0, "income", "Salary", "pay", Q.ofInt 100⟩] ∧
       rd.expenseTotal = totalExpenses [⟨0, "income", "Salary", "pay", Q.ofInt 100⟩] ∧
       rd.transactionCount =
         ([⟨0, "income", "Salary", "pay", Q.ofInt 100⟩] : List TxRow).length) ∧
    filterByPeriod 0 "This Week"
        [⟨-1000000, "expense", "Food", "old", Q.ofInt 5⟩] = [] ∧
    computeReport 0 [⟨-1000000, "expense", "Food", "old", Q.ofInt 5⟩]
        "This Week" = none := by
  refine claimC6 0 [⟨0, "income", "Salary", "pay", Q.ofInt 100⟩]
    [⟨-1000000, "expense", "Food", "old", Q.ofInt 5⟩] ?_ (by decide) ?_
  · intro r hr
    simp only [List.mem_singleton] at hr
    rw [hr]
    decide
  · intro r hr
    simp only [List.mem_singleton] at hr
    rw [hr]
    decide

/-! ## Claim C7 -/

theorem Q.num_pos_of_val_pos {b : Q} (hb : 0 < b.val) : 0 < b.num := by
  by_contra h
  push_neg at h
  have h1 : ((b.num : ℚ)) ≤ 0 := by exact_mod_cast h
  have : b.val ≤ 0 := by
    unfold Q.val
    rw [div_nonpos_iff]
    exact Or.inr ⟨h1, le_of_lt b.den_cast_pos⟩
  linarith

theorem Q.val_div_pos (a b : Q) (hb : 0 < b.val) :
    (a.div b).val = a.val / b.val := by
  have hbnum : 0 < b.num := Q.num_pos_of_val_pos hb
  have hnab : 1 ≤ b.num.natAbs := by
    rw [Nat.one_le_iff_ne_zero, Int.natAbs_ne_zero]
    exact ne_of_gt hbnum
  have hprod : 1 ≤ (a.pden + 1) * b.num.natAbs :=
    Nat.one_le_iff_ne_zero.mpr (by
      intro h
      rcases Nat.mul_eq_zero.mp h with h1 | h2
      · exact absurd h1 (Nat.succ_ne_zero _)
      · rw [h2] at hnab; exact absurd hnab (by decide))
  have hd2 : (((a.pden + 1) * b.num.natAbs - 1 : ℕ) : ℤ) + 1 =
      ((a.pden : ℤ) + 1) * b.num := by
    have h1 : (((a.pden + 1) * b.num.natAbs - 1 : ℕ) : ℤ) =
        (((a.pden + 1) * b.num.natAbs : ℕ) : ℤ) - 1 := by
      exact_mod_cast Int.ofNat_sub hprod
    rw [h1]
    push_cast
    rw [abs_of_pos hbnum]
    ring
  have hd4 : ((((a.pden + 1) * b.num.natAbs - 1 : ℕ) : ℚ) + 1) =
      ((a.pden : ℚ) + 1) * (b.num : ℚ) := by exact_mod_cast hd2
  have hane : ((a.pden : ℚ) + 1) ≠ 0 := by positivity
  have hbne : ((b.pden : ℚ) + 1) ≠ 0 := by positivity
  have hbnq : (b.num : ℚ) ≠ 0 := by
    exact_mod_cast ne_of_gt hbnum
  unfold Q.div
  rw [if_pos (le_of_lt hbnum)]
  unfold Q.val Q.den
  push_cast
  rw [hd4]
  field_simp

theorem Q.val_tenth : (⟨1, 9⟩ : Q).val = 1 / 10 := by
  norm_num [Q.val, Q.den]

theorem Q.val_hundred : (Q.ofInt 100).val = 100 := by
  norm_num [Q.val, Q.ofInt, Q.den]

/-- Shared helper: the savings-rate and tithe lines appear in the built
report only when the income total is positive in the report's own
comparison. -/
theorem mem_report_savings_or_tithe (period : String) (rd : ReportData)
    (l : RLine) (hl : l ∈ buildFormattedReport period rd)
    (hx : (∃ x, l = RLine.savingsRateLine x) ∨ ∃ x, l = RLine.titheLine x) :
    (Q.ofInt 0).blt rd.incomeTotal = true := by
  cases hb : (Q.ofInt 0).blt rd.incomeTotal with
  | true => rfl
  | false =>
    exfalso
    have hh1 : ∀ x : Q, RLine.savingsRateLine x ≠
        (if (Q.ofInt 0).blt rd.netSavings then RLine.healthPositive
         else if rd.netSavings.beqv (Q.ofInt 0) then RLine.healthBreakEven
         else RLine.healthNegative) := by
      intro x; split_ifs <;> simp
    have hh2 : ∀ x : Q, RLine.titheLine x ≠
        (if (Q.ofInt 0).blt rd.netSavings then RLine.healthPositive
         else if rd.netSavings.beqv (Q.ofInt 0) then RLine.healthBreakEven
         else RLine.healthNegative) := by
      intro x; split_ifs <;> simp
    have hmap1 : ∀ (x : Q) (bl : List (String × Q)), RLine.savingsRateLine x ∉
        List.take 3 (List.map (fun p => RLine.incomeItem p.1 p.2) bl) := by
      intro x bl h
      have h2 := List.take_subset 3 _ h
      simp [List.mem_map] at h2
    have hmap2 : ∀ (x : Q) (bl : List (String × Q)), RLine.savingsRateLine x ∉
        List.take 3 (List.map (fun p => RLine.expenseItem p.1 p.2) bl) := by
      intro x bl h
      have h2 := List.take_subset 3 _ h
      simp [List.mem_map] at h2
    have hmap3 : ∀ (x : Q) (bl : List (String × Q)), RLine.titheLine x ∉
        List.take 3 (List.map (fun p => RLine.incomeItem p.1 p.2) bl) := by
      intro x bl h
      have h2 := List.take_subset 3 _ h
      simp [List.mem_map] at h2
    have hmap4 : ∀ (x : Q) (bl : List (String × Q)), RLine.titheLine x ∉
        List.take 3 (List.map (fun p => RLine.expenseItem p.1 p.2) bl) := by
      intro x bl h
      have h2 := List.take_subset 3 _ h
      simp [List.mem_map] at h2
    rcases hbe : rd.biggestExpense with _ | br <;>
      rcases htc : rd.topCategory with _ | tc <;>
        by_cases hib : rd.incomeBreakdown.isEmpty <;>
          by_cases heb : rd.expenseBreakdown.isEmpty <;>
            obtain ⟨x, rfl⟩ | ⟨x, rfl⟩ := hx <;>
              simp [buildFormattedReport, hb, hbe, htc, hib, heb, hh1 x, hh2 x,
                hmap1 x, hmap2 x, hmap3 x, hmap4 x] at hl

/-- C7: from the computed report metrics, `net = income − expense`; when
the income total is positive the report renders
`savings_rate = net / income × 100` and `tithe = income × 0.10`, and
both lines appear; when it is zero, neither line appears anywhere in the
report.  At the claim's instance — income `[(Salary, 1000)]`, expense
`[(Food, 300)]` — the rendered lines read `Net Savings: ₱700.00`,
`Savings Rate: 70.0%` and `Suggested Tithe (10%): ₱100.00`. -/
theorem claimC7 (now : Int) (rows : List TxRow) (period : String)
    (rd : ReportData) (hc : computeReport now rows period = some rd) :
    (rd.netSavings.val = rd.incomeTotal.val - rd.expenseTotal.val ∧
     (0 < rd.incomeTotal.val →
       rd.savingsRate.val = rd.netSavings.val / rd.incomeTotal.val * 100 ∧
       rd.titheRecommendation.val = rd.incomeTotal.val * (1 / 10) ∧
       RLine.savingsRateLine rd.savingsRate ∈ buildFormattedReport period rd ∧
       RLine.titheLine rd.titheRecommendation ∈ buildFormattedReport period rd) ∧
     (rd.incomeTotal.val = 0 →
       ∀ l ∈ buildFormattedReport period rd,
         (∀ x : Q, l ≠ RLine.savingsRateLine x) ∧
         (∀ x : Q, l ≠ RLine.titheLine x))) ∧
    ((computeReport 0
        [⟨0, "income", "Salary", "Monthly salary", Q.ofInt 1000⟩,
         ⟨0, "expense", "Food", "Groceries", Q.ofInt 300⟩] "This Week").map
      (fun r => ((RLine.netSavingsLine r.netSavings).render,
                 (RLine.savingsRateLine r.savingsRate).render,
                 (RLine.titheLine r.titheRecommendation).render)) =
      some ("Net Savings: ₱700.00", "Savings Rate: 70.0%",
            "Suggested Tithe (10%): ₱100.00")) := by
  have hfields : rd.netSavings = rd.incomeTotal.sub rd.expenseTotal ∧
      rd.titheRecommendation = rd.incomeTotal.mul ⟨1, 9⟩ ∧
      rd.savingsRate =
        (if (Q.ofInt 0).blt rd.incomeTotal then
          (rd.netSavings.div rd.incomeTotal).mul (Q.ofInt 100)
         else Q.ofInt 0) := by
    simp only [computeReport] at hc
    by_cases h1 : rows.isEmpty = true
    · rw [if_pos h1] at hc
      exact absurd hc (by simp)
    · rw [if_neg h1] at hc
      by_cases h2 : (filterByPeriod now period rows).isEmpty = true
      · rw [if_pos h2] at hc
        exact absurd hc (by simp)
      · rw [if_neg h2] at hc
        rw [Option.some.injEq] at hc
        rw [← hc]
        exact ⟨rfl, rfl, rfl⟩
  obtain ⟨hnet, htithe, hrate⟩ := hfields
  refine ⟨⟨?_, ?_, ?_⟩, by decide⟩
  · rw [hnet, Q.val_sub]
  · intro hpos
    have hblt : (Q.ofInt 0).blt rd.incomeTotal = true :=
      (Q.blt_zero_iff _).mpr hpos
    refine ⟨?_, ?_, ?_, ?_⟩
    · rw [hrate, if_pos hblt, Q.val_mul, Q.val_div_pos _ _ hpos, Q.val_hundred]
    · rw [htithe, Q.val_mul, Q.val_tenth]
    · simp [buildFormattedReport, hblt]
    · simp [buildFormattedReport, hblt]
  · intro hz
    have hbf : (Q.ofInt 0).blt rd.incomeTotal = false := by
      cases h : (Q.ofInt 0).blt rd.incomeTotal with
      | false => rfl
      | true =>
        have := (Q.blt_zero_iff _).mp h
        rw [hz] at this
        exact absurd this (lt_irrefl 0)
    intro l hl
    constructor
    · intro x he
      have := mem_report_savings_or_tithe period rd l hl (Or.inl ⟨x, he⟩)
      rw [hbf] at this
      exact absurd this (by simp)
    · intro x he
      have := mem_report_savings_or_tithe period rd l hl (Or.inr ⟨x, he⟩)
      rw [hbf] at this
      exact absurd this (by simp)

/-- C7 witness: the claim's instance, with the metrics spelled out. -/
theorem claimC7_witness :
    (rdC7.netSavings.val = rdC7.incomeTotal.val - rdC7.expenseTotal.val ∧
     (0 < rdC7.incomeTotal.val →
       rdC7.savingsRate.val = rdC7.netSavings.val / rdC7.incomeTotal.val * 100 ∧
       rdC7.titheRecommendation.val = rdC7.incomeTotal.val * (1 / 10) ∧
       RLine.savingsRateLine rdC7.savingsRate ∈
         buildFormattedReport "This Week" rdC7 ∧
       RLine.titheLine rdC7.titheRecommendation ∈
         buildFormattedReport "This Week" rdC7) ∧
     (rdC7.incomeTotal.val = 0 →
       ∀ l ∈ buildFormattedReport "This Week" rdC7,
         (∀ x : Q, l ≠ RLine.savingsRateLine x) ∧
         (∀ x : Q, l ≠ RLine.titheLine x))) ∧
    ((computeReport 0
        [⟨0, "income", "Salary", "Monthly salary", Q.ofInt 1000⟩,
         ⟨0, "expense", "Food", "Groceries", Q.ofInt 300⟩] "This Week").map
      (fun r => ((RLine.netSavingsLine r.netSavings).render,
                 (RLine.savingsRateLine r.savingsRate).render,
                 (RLine.titheLine r.titheRecommendation).render)) =
      some ("Net Savings: ₱700.00", "Savings Rate: 70.0%",
            "Suggested Tithe (10%): ₱100.00")) :=
  claimC7 0
    [⟨0, "income", "Salary", "Monthly salary", Q.ofInt 1000⟩,
     ⟨0, "expense", "Food", "Groceries", Q.ofInt 300⟩]
    "This Week" rdC7 (by decide)

/-! ## Claim C8 -/

theorem firstMaxRow_eq_none {l : List TxRow} (h : firstMaxRow l = none) :
    l = [] := by
  cases l with
  | nil => rfl
  | cons a as =>
    exfalso
    simp only [firstMaxRow] at h
    rcases h2 : firstMaxRow as with _ | m
    · rw [h2] at h; exact absurd h (by simp)
    · rw [h2] at h
      dsimp only [] at h
      by_cases hb : a.amount.blt m.amount = true
      · rw [if_pos hb] at h; exact absurd h (by simp)
      · rw [if_neg hb] at h; exact absurd h (by simp)

theorem firstMaxRow_spec : ∀ (l : List TxRow) (r : TxRow),
    firstMaxRow l = some r →
    r ∈ l ∧ ∀ x ∈ l, x.amount.val ≤ r.amount.val := by
  intro l
  induction l with
  | nil => intro r h; simp [firstMaxRow] at h
  | cons a as ih =>
    intro r h
    simp only [firstMaxRow] at h
    rcases h2 : firstMaxRow as with _ | m
    · rw [h2] at h
      simp only [Option.some.injEq] at h
      obtain rfl := h
      obtain rfl := firstMaxRow_eq_none h2
      refine ⟨List.mem_singleton_self _, ?_⟩
      intro x hx
      rw [List.mem_singleton] at hx
      rw [hx]
    · rw [h2] at h
      dsimp only [] at h
      obtain ⟨hm_mem, hm_ge⟩ := ih m h2
      by_cases hb : a.amount.blt m.amount = true
      · rw [if_pos hb] at h
        simp only [Option.some.injEq] at h
        obtain rfl := h
        refine ⟨List.mem_cons_of_mem _ hm_mem, ?_⟩
        intro x hx
        rcases List.mem_cons.mp hx with hxa | hxs
        · rw [hxa]; exact le_of_lt ((Q.blt_iff _ _).mp hb)
        · exact hm_ge x hxs
      · rw [if_neg hb] at h
        simp only [Option.some.injEq] at h
        obtain rfl := h
        have hma : m.amount.val ≤ a.amount.val :=
          le_of_not_lt (fun hlt => hb ((Q.blt_iff a.amount m.amount).mpr hlt))
        refine ⟨List.mem_cons_self _ _, ?_⟩
        intro x hx
        rcases List.mem_cons.mp hx with hxa | hxs
        · rw [hxa]
        · exact le_trans (hm_ge x hxs) hma

theorem firstMaxRow_first : ∀ (l : List TxRow) (r : TxRow),
    firstMaxRow l = some r →
    ∃ l1 l2, l = l1 ++ r :: l2 ∧ ∀ x ∈ l1, x.amount.val < r.amount.val := by
  intro l
  induction l with
  | nil => intro r h; simp [firstMaxRow] at h
  | cons a as ih =>
    intro r h
    simp only [firstMaxRow] at h
    rcases h2 : firstMaxRow as with _ | m
    · rw [h2] at h
      simp only [Option.some.injEq] at h
      obtain rfl := h
      exact ⟨[], as, rfl, by simp⟩
    · rw [h2] at h
      dsimp only [] at h
      by_cases hb : a.amount.blt m.amount = true
      · rw [if_pos hb] at h
        simp only [Option.some.injEq] at h
        obtain rfl := h
        obtain ⟨l1, l2, heq, hlt⟩ := ih m h2
        refine ⟨a :: l1, l2, by rw [heq]; rfl, ?_⟩
        intro x hx
        rcases List.mem_cons.mp hx with hxa | hxs
        · rw [hxa]; exact (Q.blt_iff _ _).mp hb
        · exact hlt x hxs
      · rw [if_neg hb] at h
        simp only [Option.some.injEq] at h
        obtain rfl := h
        exact ⟨[], as, rfl, by simp⟩

theorem firstMaxCat_eq_none {rows : List TxRow} {cats : List String}
    (h : firstMaxCat rows cats = none) : cats = [] := by
  cases cats with
  | nil => rfl
  | cons c cs =>
    exfalso
    simp only [firstMaxCat] at h
    rcases h2 : firstMaxCat rows cs with _ | ⟨m, mv⟩
    · rw [h2] at h; exact absurd h (by simp)
    · rw [h2] at h
      dsimp only [] at h
      by_cases hb : (categorySum rows c).blt mv = true
      · rw [if_pos hb] at h; exact absurd h (by simp)
      · rw [if_neg hb] at h; exact absurd h (by simp)

theorem firstMaxCat_spec : ∀ (cats : List String) (rows : List TxRow)
    (c : String) (s : Q), firstMaxCat rows cats = some (c, s) →
    c ∈ cats ∧ s = categorySum rows c ∧
    ∀ d ∈ cats, (categorySum rows d).val ≤ s.val := by
  intro cats
  induction cats with
  | nil => intro rows c s h; simp [firstMaxCat] at h
  | cons c0 cs ih =>
    intro rows c s h
    simp only [firstMaxCat] at h
    rcases h2 : firstMaxCat rows cs with _ | ⟨m, mv⟩
    · rw [h2] at h
      simp only [Option.some.injEq, Prod.mk.injEq] at h
      obtain ⟨rfl, rfl⟩ := h
      obtain rfl := firstMaxCat_eq_none h2
      refine ⟨List.mem_singleton_self _, rfl, ?_⟩
      intro d hd
      rw [List.mem_singleton] at hd
      rw [hd]
    · rw [h2] at h
      dsimp only [] at h
      obtain ⟨hm_mem, hm_eq, hm_ge⟩ := ih rows m mv h2
      by_cases hb : (categorySum rows c0).blt mv = true
      · rw [if_pos hb] at h
        simp only [Option.some.injEq, Prod.mk.injEq] at h
        obtain ⟨rfl, rfl⟩ := h
        refine ⟨List.mem_cons_of_mem _ hm_mem, hm_eq, ?_⟩
        intro d hd
        rcases List.mem_cons.mp hd with hda | hds
        · rw [hda]; exact le_of_lt ((Q.blt_iff _ _).mp hb)
        · exact hm_ge d hds
      · rw [if_neg hb] at h
        simp only [Option.some.injEq, Prod.mk.injEq] at h
        obtain ⟨rfl, rfl⟩ := h
        have hps : mv.val ≤ (categorySum rows c0).val :=
          le_of_not_lt (fun hlt => hb ((Q.blt_iff _ _).mpr hlt))
        refine ⟨List.mem_cons_self _ _, rfl, ?_⟩
        intro d hd
        rcases List.mem_cons.mp hd with hda | hds
        · rw [hda]
        · exact le_trans (hm_ge d hds) hps

/-- C8: the top spending category returned by the report is a grouping
key whose per-category expense sum is maximal among all grouping keys,
and the biggest single expense is an expense row of maximal amount, the
first such row in input order (every earlier expense row is strictly
smaller).  At the claim's instance the top category is Food with total
150 and the biggest single expense is the 100 (Food) row. -/
theorem claimC8 (rows : List TxRow) :
    (∀ c s, findTopExpenseCategory rows = some (c, s) →
      s = categorySum rows c ∧ c ∈ sortedExpenseCategories rows ∧
      ∀ d ∈ sortedExpenseCategories rows,
        (categorySum rows d).val ≤ s.val) ∧
    (∀ r, findBiggestExpense rows = some r →
      r ∈ rows ∧ r.isExpense = true ∧
      (∀ x ∈ rows, x.isExpense = true → x.amount.val ≤ r.amount.val) ∧
      ∃ l1 l2, rows.filter TxRow.isExpense = l1 ++ r :: l2 ∧
        ∀ x ∈ l1, x.amount.val < r.amount.val) ∧
    ((computeReport 0 rowsC8 "This Week").map
        (fun rd => (rd.topCategory, rd.biggestExpense)) =
      some (some ("Food", ⟨150, 0⟩),
            some ⟨0, "expense", "Food", "Groceries", Q.ofInt 100⟩)) := by
  refine ⟨?_, ?_, by decide⟩
  · intro c s h
    simp only [findTopExpenseCategory] at h
    obtain ⟨hm, hs, hge⟩ := firstMaxCat_spec (sortedExpenseCategories rows) rows c s h
    exact ⟨hs, hm, hge⟩
  · intro r h
    simp only [findBiggestExpense] at h
    obtain ⟨hmf, hge⟩ := firstMaxRow_spec _ r h
    obtain ⟨l1, l2, heq, hlt⟩ := firstMaxRow_first _ r h
    refine ⟨List.mem_of_mem_filter hmf, List.of_mem_filter hmf, ?_,
      ⟨l1, l2, heq, hlt⟩⟩
    intro x hx hxe
    exact hge x (List.mem_filter.mpr ⟨hx, hxe⟩)

/-- C8 witness: the claim's instance applied through the general parts. -/
theorem claimC8_witness :
    ((⟨150, 0⟩ : Q) = categorySum rowsC8 "Food" ∧
     "Food" ∈ sortedExpenseCategories rowsC8 ∧
     ∀ d ∈ sortedExpenseCategories rowsC8,
       (categorySum rowsC8 d).val ≤ (⟨150, 0⟩ : Q).val) ∧
    ((⟨0, "expense", "Food", "Groceries", Q.ofInt 100⟩ : TxRow) ∈ rowsC8 ∧
     TxRow.isExpense ⟨0, "expense", "Food", "Groceries", Q.ofInt 100⟩ = true ∧
     (∀ x ∈ rowsC8, x.isExpense = true →
       x.amount.val ≤ (Q.ofInt 100).val) ∧
     ∃ l1 l2, rowsC8.filter TxRow.isExpense =
         l1 ++ (⟨0, "expense", "Food", "Groceries", Q.ofInt 100⟩ : TxRow) :: l2 ∧
       ∀ x ∈ l1, x.amount.val < (Q.ofInt 100).val) :=
  ⟨(claimC8 rowsC8).1 "Food" ⟨150, 0⟩ (by decide),
   (claimC8 rowsC8).2.1 ⟨0, "expense", "Food", "Groceries", Q.ofInt 100⟩
     (by decide)⟩

/-- C2 witness: the characterization evaluated at the plain input "150". -/
theorem claimC2_witness :
    parseAmount "150" =
      (match pyFloatOfString (cleanAmount "150") with
       | none => none
       | some (.finite q) =>
         if 0 < q.val ∧ q.val ≤ 1000000 then some (.finite (Q.roundTo 2 q))
         else none
       | some .pinf => none
       | some .ninf => none
       | some .nan => some .nan) :=
  claimC2 "150"

end WalletBot
